import Mathlib

/-!
Retry helpers and channel selection of the mobile client.

A shallow embedding of

* `app/actions/helpers/general.ts` (`dispatchWithRetry`, `promisesWithRetry`),
* `app/actions/channels/channel_selection_actions.ts` (`handleSelectChannel`,
  `selectRedirectChannelForTeam`, `selectLastViewedChannelForTeam`,
  `selectPenultimateViewedChannelForTeam`, `selectChannelFromDeepLinkMatch`),
* `app/actions/views/post/high_order_actions.ts` (`loadPostsIfNecessaryWithRetry`).

The retry helpers come twice: on inputs as their declared types describe them (results that
are objects, promises that have settled), and without those assumptions (`...Untyped`,
`...InFlight`); lemmas relate the two.

Thunks are state-passing functions: a thunk reads the world it is dispatched in and
gives back what its promise settles to (a returned value or a thrown one) together
with the world it leaves behind.  Numbers (`maxTries`, `attempt`) are integers.
-/

namespace Mobile

/-! ## Values -/

/-- The values a result can carry in its `data` and `error` fields.  `obj` is an object
with string-valued fields, such as `{id, defaultMessage}` (an object is always truthy);
`postList` is the payload `{order, posts}` of a posts request, known by the ids in `order`,
which may be absent; numbers are integers. -/
inductive Val where
  | undefined
  | null
  | bool (b : Bool)
  | num (n : Int)
  | str (s : String)
  | obj (fields : List (String × String))
  | postList (order : Option (List String))
  deriving DecidableEq, Repr

/-- Truthiness of a value, as `!x` and `x || y` read it. -/
def Val.truthy : Val → Bool
  | .undefined => false
  | .null => false
  | .bool b => b
  | .num n => n != 0
  | .str s => s != ""
  | .obj _ => true
  | .postList _ => true

/-- The type `ActionResult` of `@mm-redux/types/actions`: an object that may carry a `data`
field and may carry an `error` field.  A field that is absent reads as `undefined`. -/
structure ActionResult where
  data : Option Val := none
  error : Option Val := none
  deriving DecidableEq, Repr

/-- Reading a possibly absent field: `const {error} = result`. -/
def field (v : Option Val) : Val := v.getD Val.undefined

/-- What awaiting a dispatched thunk gives: the value it returned, or the value it threw. -/
inductive Outcome where
  | returned (result : ActionResult)
  | thrown (error : Val)
  deriving DecidableEq, Repr

/-- A thunk (`ActionFunc`) over worlds of type `σ`: dispatching it in a world settles with an
outcome and leaves a world behind. -/
abbrev ActionFunc (σ : Type) := σ → Outcome × σ

/-- Dispatching a thunk runs it: `dispatch(action)` with the thunk middleware. -/
def dispatch {σ : Type} (action : ActionFunc σ) (w : σ) : Outcome × σ := action w

/-! ## `app/actions/helpers/general.ts` -/

/-- The constant `MAX_TRIES`. -/
def MAX_TRIES : Int := 3

/-- The `try { result = await dispatch(action) } catch (error) { result = {error} }` block. -/
def tryDispatch {σ : Type} (action : ActionFunc σ) (w : σ) : ActionResult × σ :=
  match dispatch action w with
  | (.returned result, w1) => (result, w1)
  | (.thrown error, w1) => ({ error := some error }, w1)

/-- The function `doDispatchWithRetry(action, maxTries, attempt)`, on actions whose results
are what their declared type `ActionResult` says, objects; `doDispatchWithRetryUntyped`
below is the same function without that assumption. -/
def doDispatchWithRetry {σ : Type} (action : ActionFunc σ) (maxTries : Int) (attempt : Int) :
    ActionFunc σ := fun w =>
  let (result, w1) := tryDispatch action w
  let error := field result.error
  if !error.truthy || attempt >= maxTries then
    (.returned result, w1)
  else
    dispatch (doDispatchWithRetry action maxTries (attempt + 1)) w1
termination_by (maxTries - attempt).toNat
decreasing_by
  simp_wf
  simp only [Bool.or_eq_true, decide_eq_true_eq, not_or, not_le] at *
  omega

/-- The function `dispatchWithRetry(action, maxTries = MAX_TRIES)`; `none` is the omitted
argument. -/
def dispatchWithRetry {σ : Type} (action : ActionFunc σ) (maxTries : Option Int) :
    ActionFunc σ := fun w =>
  let response := dispatch (doDispatchWithRetry action (maxTries.getD MAX_TRIES) 1) w
  response

/-- A promise that has settled: fulfilled with a value or rejected with a reason. -/
inductive Settled where
  | fulfilled (value : ActionResult)
  | rejected (reason : Val)
  deriving DecidableEq, Repr

/-- The built-in `Promise.all` on promises that have all settled already: the values in
input order when every member is fulfilled, and otherwise a rejection with the reason of the
first rejected member, in input order.  For promises still pending see `awaitPromiseAll`. -/
def promiseAll : List Settled → Except Val (List ActionResult)
  | [] => .ok []
  | .rejected reason :: _ => .error reason
  | .fulfilled value :: rest =>
    match promiseAll rest with
    | .ok values => .ok (value :: values)
    | .error reason => .error reason

/-- The value of type `any[] | ErrorResult` that `promisesWithRetry` resolves to. -/
inductive BatchResult where
  | values (results : List ActionResult)
  | failure (error : Val)
  deriving DecidableEq, Repr

/-- Reading `error` off a batch result, `const {error} = results`: an array has no such
property. -/
def BatchResult.errorField : BatchResult → Val
  | .values _ => Val.undefined
  | .failure error => error

/-- The `try { results = await Promise.all(promises) } catch (error) { results = {error} }`
block. -/
def tryPromiseAll (promises : List Settled) : BatchResult :=
  match promiseAll promises with
  | .ok values => .values values
  | .error error => .failure error

/-- The function `doPromisesWithRetry(promises, maxTries, attempt)` on promises that have all
settled already; `doPromisesWithRetryInFlight` is the same function on promises that may
still be pending. -/
def doPromisesWithRetry (promises : List Settled) (maxTries : Int) (attempt : Int) :
    BatchResult :=
  let results := tryPromiseAll promises
  let error := results.errorField
  if !error.truthy || attempt >= maxTries then
    results
  else
    doPromisesWithRetry promises maxTries (attempt + 1)
termination_by (maxTries - attempt).toNat
decreasing_by
  simp_wf
  simp only [Bool.or_eq_true, decide_eq_true_eq, not_or, not_le] at *
  omega

/-- The function `promisesWithRetry(promises, maxTries = MAX_TRIES)`; `none` is the omitted
argument. -/
def promisesWithRetry (promises : List Settled) (maxTries : Option Int) : BatchResult :=
  let results := doPromisesWithRetry promises (maxTries.getD MAX_TRIES) 1
  results

/-- The number of times `doPromisesWithRetry(promises, maxTries, attempt)` awaits
`Promise.all(promises)`: one per attempt, along the same recursion. -/
def promiseAllAwaits (promises : List Settled) (maxTries : Int) (attempt : Int) : Nat :=
  if !(tryPromiseAll promises).errorField.truthy || attempt >= maxTries then
    1
  else
    1 + promiseAllAwaits promises maxTries (attempt + 1)
termination_by (maxTries - attempt).toNat
decreasing_by
  simp_wf
  simp only [Bool.or_eq_true, decide_eq_true_eq, not_or, not_le] at *
  omega

/-! ### Observing the dispatches of an action -/

/-- The action `a` with a recorder attached, as a test double would: each dispatch appends
the outcome it settled with to a log kept next to the world. -/
def traced {σ : Type} (a : ActionFunc σ) : ActionFunc (σ × List Outcome) := fun s =>
  ((a s.1).1, ((a s.1).2, s.2 ++ [(a s.1).1]))

/-- The world after `i` consecutive dispatches of `a` from `w`. -/
def worldAfter {σ : Type} (a : ActionFunc σ) (w : σ) : Nat → σ
  | 0 => w
  | i + 1 => worldAfter a (a w).2 i

/-- The outcome of dispatch number `i + 1` of `a` when it is dispatched again and again
from `w`. -/
def outcomeAt {σ : Type} (a : ActionFunc σ) (w : σ) (i : Nat) : Outcome :=
  (a (worldAfter a w i)).1

/-- The outcomes of the first `n` consecutive dispatches of `a` from `w`. -/
def outcomes {σ : Type} (a : ActionFunc σ) (w : σ) : Nat → List Outcome
  | 0 => []
  | n + 1 => (a w).1 :: outcomes a (a w).2 n

/-- The result an attempt leaves in `result`: the returned result, or `{error}` for a thrown
value. -/
def capture : Outcome → ActionResult
  | .returned result => result
  | .thrown error => { error := some error }

/-- An attempt fails for the retry loop when the `error` of its captured result is truthy. -/
def Outcome.failed (o : Outcome) : Bool := (field (capture o).error).truthy

/-- An action that settles with the same outcome at every dispatch and leaves the world
alone. -/
def always (o : Outcome) : ActionFunc Unit := fun w => (o, w)

/-- An action that plays a script: dispatch number `i + 1` settles with `script i`; the world
is the number of dispatches so far. -/
def scripted (script : Nat → Outcome) : ActionFunc Nat := fun i => (script i, i + 1)

/-- An operation of a batch: invoking it issues the request and gives the promise of its
result, here already settled.  The world is the number of invocations so far. -/
abbrev Operation := Nat → Settled × Nat

/-- An operation whose promise settles the same way at every invocation. -/
def operation (s : Settled) : Operation := fun calls => (s, calls + 1)

/-- Evaluating the array literal `[op1(), op2(), ...]`: each operation is invoked once, in
order. -/
def invokeAll : List Operation → Nat → List Settled × Nat
  | [], calls => ([], calls)
  | op :: ops, calls =>
    let (p, calls1) := op calls
    let (ps, calls2) := invokeAll ops calls1
    (p :: ps, calls2)

/-- The call `promisesWithRetry([op1(), op2(), ...], maxTries)` as a caller writes it: the
promises are created, then handed over.  The second component is the number of
invocations of the operations when the call has resolved. -/
def callPromisesWithRetry (ops : List Operation) (maxTries : Option Int) (calls : Nat) :
    BatchResult × Nat :=
  let (promises, calls1) := invokeAll ops calls
  (promisesWithRetry promises maxTries, calls1)

/-! ## `app/actions/channels/channel_selection_actions.ts` -/

/-- A channel of the store; `team_id` is absent on the channels of the tests and empty on
direct-message channels. -/
structure Channel where
  id : String
  display_name : String := ""
  team_id : Option String := none
  deriving DecidableEq, Repr

/-- The current user's membership of a channel. -/
structure ChannelMembership where
  channel_id : String
  user_id : String := ""
  mention_count : Int := 0
  msg_count : Int := 0
  deriving DecidableEq, Repr

/-- A team of the store. -/
structure Team where
  id : String
  name : String := ""
  deriving DecidableEq, Repr

/-- The object `extra` handed to `selectChannel`. -/
structure SelectChannelExtra where
  channel : Channel
  member : Option ChannelMembership
  teamId : String
  deriving DecidableEq, Repr

/-- Plain store actions (state-update events).  `selectChannel data extra` is the action
built by `selectChannel(channelId, extra)` of `@actions/channels`; the three `set...`
actions are those built by the creators of `@actions/views/channels`; `plain` is any other
action object, known by its `type`. -/
inductive Event where
  | selectChannel (data : String) (extra : SelectChannelExtra)
  | plain (type : String)
  | setLastGetPostsForChannel (channelId : String) (time : Int)
  | setChannelRetryFailed (failed : Bool)
  | setLoadMorePostsVisible (visible : Bool)
  deriving DecidableEq, Repr

/-- The two thunks of `@actions/views/post` that fetch posts, by the expression that builds
them. -/
inductive PostAction where
  | getPosts (channelId : String)
  | getPostsSince (channelId : String) (since : Int)
  deriving DecidableEq, Repr

/-- What a thunk hands to `dispatch`, by the expression written at the call. -/
inductive Dispatched where
  | loadPostsIfNecessaryWithRetry (channelId : String)
  | batchActions (actions : List Event) (tag : String)
  | handleSelectChannel (channelId : String)
  | selectRedirectChannelForTeam (teamId : String)
  | selectTeam (team : Team)
  | dispatchWithRetry (action : PostAction)
  deriving DecidableEq, Repr

/-- The selectors, helpers and constants the file imports from modules that are not part of
the sources at hand, over an arbitrary type of store states. -/
structure Collaborators (State : Type) where
  getCurrentChannelId : State → String
  getCurrentTeamId : State → String
  getChannel : State → String → Option Channel
  getMyChannelMember : State → String → Option ChannelMembership
  getRedirectChannelForTeam : State → String → Option Channel
  getTeamByName : State → String → Option Team
  getChannelByName : State → String → Option Channel
  getLastViewedChannelForTeam : State → String → Option Channel
  getPenultimateViewedChannelForTeam : State → String → Option Channel
  canSelectChannel : State → Option Channel → Bool
  markChannelAsViewedAndReadActions : State → String → String → List Event
  DEFAULT_CHANNEL_NOT_FOUND : String

/-- Modelled from the spec: the helper `t` of `@utils/i18n` is not among the sources; the
spec gives the identifier of a failure as the literal that is passed to `t`, so `t` hands its
argument back. -/
def t (id : String) : String := id

/-- One run of a thunk of this file on a state snapshot: the `dispatch` calls it makes, in
order, the notifications it publishes with `EventEmitter.emit(name, payload)`, in order, and
the result it returns. -/
structure Run where
  dispatched : List Dispatched := []
  emitted : List (String × Val) := []
  result : ActionResult
  deriving DecidableEq, Repr

/-- The expression `channel.team_id || currentTeamId`. -/
def teamIdOr (team_id : Option String) (currentTeamId : String) : String :=
  match team_id with
  | some id => if id != "" then id else currentTeamId
  | none => currentTeamId

/-- The thunk `handleSelectChannel(channelId)` on the snapshot `state = getState()`.  The
two `Date.now()` readings and the `console.log` line leave no trace in the store and are
left out. -/
def handleSelectChannel {State : Type} (c : Collaborators State) (channelId : String)
    (state : State) : Run :=
  let currentChannelId := c.getCurrentChannelId state
  if channelId = currentChannelId then
    { result := { data := some (.bool false) } }
  else
    let currentTeamId := c.getCurrentTeamId state
    let channel := c.getChannel state channelId
    let member := c.getMyChannelMember state channelId
    let first := [Dispatched.loadPostsIfNecessaryWithRetry channelId]
    match channel with
    | some channel =>
      if currentChannelId ≠ channelId then
        let actions := c.markChannelAsViewedAndReadActions state channelId currentChannelId
        let extra : SelectChannelExtra :=
          { channel := channel, member := member,
            teamId := teamIdOr channel.team_id currentTeamId }
        let actions := actions ++ [Event.selectChannel channelId extra]
        { dispatched := first ++ [Dispatched.batchActions actions "BATCH_SWITCH_CHANNEL"],
          result := { data := some (.bool true) } }
      else
        { dispatched := first, result := { data := some (.bool true) } }
    | none => { dispatched := first, result := { data := some (.bool true) } }

/-- The thunk `selectRedirectChannelForTeam(teamId)` on the snapshot `state = getState()`. -/
def selectRedirectChannelForTeam {State : Type} (c : Collaborators State) (teamId : String)
    (state : State) : Run :=
  match c.getRedirectChannelForTeam state teamId with
  | none =>
    let error := Val.obj [("id", t "mobile.default_channel.error"),
      ("defaultMessage", "A default channel for this team was not found.")]
    { emitted := [(c.DEFAULT_CHANNEL_NOT_FOUND, error)], result := { error := some error } }
  | some channel =>
    { dispatched := [Dispatched.handleSelectChannel channel.id],
      result := { data := some (.bool true) } }

/-- The `TypeError` that reading a property of `undefined` throws. -/
def typeError : Val := Val.obj [("name", "TypeError")]

/-- The thunk `selectLastViewedChannelForTeam(teamId)` on the snapshot `state = getState()`.
The argument `channel.id` is read before anything is dispatched; on a missing channel that
reading throws, and the thunk's promise is rejected. -/
def selectLastViewedChannelForTeam {State : Type} (c : Collaborators State) (teamId : String)
    (state : State) : Except Val Run :=
  let channel := c.getLastViewedChannelForTeam state teamId
  if c.canSelectChannel state channel then
    match channel with
    | some channel =>
      .ok { dispatched := [Dispatched.handleSelectChannel channel.id],
            result := { data := some (.bool true) } }
    | none => .error typeError
  else
    .ok { dispatched := [Dispatched.selectRedirectChannelForTeam teamId],
          result := { data := some (.bool true) } }

/-- The thunk `selectPenultimateViewedChannelForTeam(teamId)` on the snapshot
`state = getState()`; see `selectLastViewedChannelForTeam` for the reading of `channel.id`. -/
def selectPenultimateViewedChannelForTeam {State : Type} (c : Collaborators State)
    (teamId : String) (state : State) : Except Val Run :=
  let channel := c.getPenultimateViewedChannelForTeam state teamId
  if c.canSelectChannel state channel then
    match channel with
    | some channel =>
      .ok { dispatched := [Dispatched.handleSelectChannel channel.id],
            result := { data := some (.bool true) } }
    | none => .error typeError
  else
    .ok { dispatched := [Dispatched.selectRedirectChannelForTeam teamId],
          result := { data := some (.bool true) } }

/-- The thunk `selectChannelFromDeepLinkMatch(channelName, teamName)` on the snapshot
`state = getState()`.  A channel without `team_id` has `undefined` there, which differs
from every team id. -/
def selectChannelFromDeepLinkMatch {State : Type} (c : Collaborators State)
    (channelName teamName : String) (state : State) : Run :=
  match c.getTeamByName state teamName with
  | none =>
    let error := Val.obj [("id", t "mobile.server_link.unreachable_team.error"),
      ("defaultMessage",
        "This link belongs to a deleted team or to a team to which you do not have access.")]
    { result := { error := some error } }
  | some team =>
    match c.getChannelByName state channelName with
    | none =>
      let error := Val.obj [("id", t "mobile.server_link.unreachable_channel.error"),
        ("defaultMessage",
          "This link belongs to a deleted channel or to a channel to which you do not have access.")]
      { result := { error := some error } }
    | some channel =>
      if channel.team_id ≠ some team.id then
        let error := Val.obj [("id", t "mobile.server_link.error.text"),
          ("defaultMessage", "The link could not be found on this server.")]
        { result := { error := some error } }
      else
        let currentChannelId := c.getCurrentChannelId state
        let currentTeamId := c.getCurrentTeamId state
        if channel.id ≠ currentChannelId then
          let first := if team.id ≠ currentTeamId then [Dispatched.selectTeam team] else []
          { dispatched := first ++ [Dispatched.handleSelectChannel channel.id],
            result := { data := some (.bool true) } }
        else
          { result := { data := some (.bool true) } }

/-- The `id` of the error object of a result, when it has one. -/
def errorId (r : ActionResult) : Option String :=
  match r.error with
  | some (.obj fields) => fields.lookup "id"
  | _ => none

/-- Exactly one of the two fields `data` and `error` is present. -/
def ActionResult.oneVariant (r : ActionResult) : Bool :=
  (r.data.isSome && !r.error.isSome) || (r.error.isSome && !r.data.isSome)

/-- The state-update events a run emits: the payloads of the batches it dispatches. -/
def Run.events (r : Run) : List Event :=
  r.dispatched.flatMap fun d =>
    match d with
    | .batchActions actions _ => actions
    | _ => []

/-- The batches a run dispatches under a given tag. -/
def Run.batches (r : Run) (tag : String) : List (List Event) :=
  r.dispatched.filterMap fun d =>
    match d with
    | .batchActions actions tag1 => if tag1 = tag then some actions else none
    | _ => none

/-! ## `app/actions/views/post/high_order_actions.ts` -/

/-- The length of a string as `.length` counts it, in UTF-16 code units. -/
def utf16Length (s : String) : Nat :=
  s.foldl (fun n ch => n + if ch.toNat ≥ 65536 then 2 else 1) 0

/-- The number `data.order.length` when `data.order` is truthy, for a truthy `data`. -/
def Val.orderLength : Val → Option Nat
  | .postList (some order) => some order.length
  | .obj fields =>
    match fields.lookup "order" with
    | some s => if s != "" then some (utf16Length s) else none
    | none => none
  | _ => none

/-- The selector, helper, constant and thunks that `loadPostsIfNecessaryWithRetry` imports
from modules that are not part of the sources at hand; `perform` is what dispatching
`getPosts(channelId)` or `getPostsSince(channelId, since)` does in a world of type `σ`. -/
structure PostCollaborators (State σ : Type) where
  getPostIdsInChannel : State → String → Option (List String)
  getChannelSinceValue : State → String → List String → Int
  POST_VISIBILITY_CHUNK_SIZE : Int
  perform : PostAction → ActionFunc σ

/-- One run of `loadPostsIfNecessaryWithRetry`: its `dispatch` calls in order, what its
promise settles to, and the world it leaves. -/
structure PostsRun (σ : Type) where
  dispatched : List Dispatched
  outcome : Outcome
  world : σ

/-- The thunk `loadPostsIfNecessaryWithRetry(channelId)` on the snapshot
`state = getState()`, with `time = Date.now()`. -/
def loadPostsIfNecessaryWithRetry {State σ : Type} (p : PostCollaborators State σ)
    (channelId : String) (time : Int) (state : State) (w : σ) : PostsRun σ :=
  let postIds := p.getPostIdsInChannel state channelId
  let postAction :=
    match postIds with
    | none => PostAction.getPosts channelId
    | some postIds =>
      if (postIds.length : Int) < p.POST_VISIBILITY_CHUNK_SIZE then
        PostAction.getPosts channelId
      else
        let since := p.getChannelSinceValue state channelId postIds
        PostAction.getPostsSince channelId since
  match dispatch (dispatchWithRetry (p.perform postAction) none) w with
  | (.thrown error, w1) =>
    { dispatched := [Dispatched.dispatchWithRetry postAction], outcome := .thrown error,
      world := w1 }
  | (.returned result, w1) =>
    let data := field result.data
    let actions :=
      if data.truthy then
        [Event.setLastGetPostsForChannel channelId time, Event.setChannelRetryFailed false]
      else
        [Event.setChannelRetryFailed true]
    let loadMorePostsVisible :=
      if data.truthy then
        match data.orderLength with
        | some count => decide ((count : Int) ≥ p.POST_VISIBILITY_CHUNK_SIZE)
        | none => true
      else true
    let actions := actions ++ [Event.setLoadMorePostsVisible loadMorePostsVisible]
    { dispatched := [Dispatched.dispatchWithRetry postAction,
        Dispatched.batchActions actions "BATCH_LOAD_POSTS_IN_CHANNEL"],
      outcome := .returned { data := some (.bool true) }, world := w1 }

/-- The thunk `handleSelectChannel(channelId)` as the function of `dispatch` and `getState`
that the source writes, over any store world `ω`: `dispatch` may do anything to the world
and hand back anything (for a thunk, the promise of its result), and the body goes on in
the world it leaves.  What `dispatch` hands back is dropped, as in the source, where no call
is awaited or bound. -/
def handleSelectChannelThunk {State ω ρ : Type} (c : Collaborators State) (channelId : String)
    (dispatch : Dispatched → ω → ρ × ω) (getState : ω → State) (w : ω) : ActionResult × ω :=
  let state := getState w
  let currentChannelId := c.getCurrentChannelId state
  if channelId = currentChannelId then
    ({ data := some (.bool false) }, w)
  else
    let currentTeamId := c.getCurrentTeamId state
    let channel := c.getChannel state channelId
    let member := c.getMyChannelMember state channelId
    let w1 := (dispatch (Dispatched.loadPostsIfNecessaryWithRetry channelId) w).2
    match channel with
    | some channel =>
      if currentChannelId ≠ channelId then
        let actions := c.markChannelAsViewedAndReadActions state channelId currentChannelId
        let extra : SelectChannelExtra :=
          { channel := channel, member := member,
            teamId := teamIdOr channel.team_id currentTeamId }
        let actions := actions ++ [Event.selectChannel channelId extra]
        let w2 := (dispatch (Dispatched.batchActions actions "BATCH_SWITCH_CHANNEL") w1).2
        ({ data := some (.bool true) }, w2)
      else
        ({ data := some (.bool true) }, w1)
    | none => ({ data := some (.bool true) }, w1)

/-- A `dispatch` with a recorder attached: each call is appended to a list kept next to the
world, then carried out. -/
def recording {ω ρ : Type} (dispatch : Dispatched → ω → ρ × ω) :
    Dispatched → ω × List Dispatched → ρ × (ω × List Dispatched) := fun d s =>
  ((dispatch d s.1).1, ((dispatch d s.1).2, s.2 ++ [d]))

/-- The batches among recorded `dispatch` calls that carry a given tag. -/
def batchesTagged (calls : List Dispatched) (tag : String) : List (List Event) :=
  calls.filterMap fun d =>
    match d with
    | .batchActions actions tag1 => if tag1 = tag then some actions else none
    | _ => none

/-- One `dispatch` among the many possible, for examples, over a world that counts fetches:
a dispatched `loadPostsIfNecessaryWithRetry(channelId)` is carried out at once with the
given collaborators and what it settled to is handed back; any other call leaves the world
alone. -/
def prefetching {State : Type} (p : PostCollaborators State Nat) (state : State) :
    Dispatched → Nat → Option Outcome × Nat := fun d w =>
  match d with
  | .loadPostsIfNecessaryWithRetry id =>
    (some (loadPostsIfNecessaryWithRetry p id 0 state w).outcome,
      (loadPostsIfNecessaryWithRetry p id 0 state w).world)
  | _ => (none, w)

/-! ## `general.ts` without the declared types -/

/-- A value that is neither an object nor `undefined` nor `null`. -/
inductive Primitive where
  | bool (b : Bool)
  | num (n : Int)
  | str (s : String)
  deriving DecidableEq, Repr

/-- What `await dispatch(action)` can give when nothing is assumed of it: an object, read
through its `data` and `error` fields, a primitive, `undefined` (a thunk that returns
nothing) or `null`. -/
inductive Resolved where
  | object (result : ActionResult)
  | primitive (value : Primitive)
  | undefined
  | null
  deriving DecidableEq, Repr

/-- What a promise settles to: the value it resolves to, or the value it rejects with. -/
inductive UntypedOutcome where
  | resolved (value : Resolved)
  | thrown (error : Val)
  deriving DecidableEq, Repr

/-- A thunk of which nothing is assumed. -/
abbrev UntypedActionFunc (σ : Type) := σ → UntypedOutcome × σ

/-- The destructuring `const {error} = result`: it throws a `TypeError` on `undefined` and on
`null`, and reads `undefined` off a primitive. -/
def Resolved.errorField : Resolved → Except Val Val
  | .object result => .ok (field result.error)
  | .primitive _ => .ok Val.undefined
  | .undefined => .error typeError
  | .null => .error typeError

/-- The `try { result = await dispatch(action) } catch (error) { result = {error} }` block. -/
def tryDispatchUntyped {σ : Type} (action : UntypedActionFunc σ) (w : σ) : Resolved × σ :=
  match action w with
  | (.resolved value, w1) => (value, w1)
  | (.thrown error, w1) => (.object { error := some error }, w1)

/-- The function `doDispatchWithRetry(action, maxTries, attempt)` with nothing assumed of
what the action resolves to: the destructuring at line 25 stands outside the `try`, so the
`TypeError` it throws is what the returned promise rejects with. -/
def doDispatchWithRetryUntyped {σ : Type} (action : UntypedActionFunc σ) (maxTries : Int)
    (attempt : Int) : UntypedActionFunc σ := fun w =>
  match (tryDispatchUntyped action w).1.errorField with
  | .error thrown => (.thrown thrown, (tryDispatchUntyped action w).2)
  | .ok error =>
    if !error.truthy || attempt >= maxTries then
      (.resolved (tryDispatchUntyped action w).1, (tryDispatchUntyped action w).2)
    else
      doDispatchWithRetryUntyped action maxTries (attempt + 1) (tryDispatchUntyped action w).2
termination_by (maxTries - attempt).toNat
decreasing_by
  simp_wf
  simp only [Bool.or_eq_true, decide_eq_true_eq, not_or, not_le] at *
  omega

/-- The function `dispatchWithRetry(action, maxTries = MAX_TRIES)` with nothing assumed of
what the action resolves to; `none` is the omitted argument. -/
def dispatchWithRetryUntyped {σ : Type} (action : UntypedActionFunc σ)
    (maxTries : Option Int) : UntypedActionFunc σ := fun w =>
  let response := doDispatchWithRetryUntyped action (maxTries.getD MAX_TRIES) 1 w
  response

/-- An outcome of the declared type among all outcomes. -/
def Outcome.untyped : Outcome → UntypedOutcome
  | .returned result => .resolved (.object result)
  | .thrown error => .thrown error

/-- An action of the declared type, each of whose attempts resolves to a result object or
throws, among all actions. -/
def untyped {σ : Type} (a : ActionFunc σ) : UntypedActionFunc σ := fun w =>
  ((a w).1.untyped, (a w).2)

/-- An action with a counter attached: each dispatch adds one to a number kept next to the
world. -/
def counted {σ : Type} (a : UntypedActionFunc σ) : UntypedActionFunc (σ × Nat) := fun s =>
  ((a s.1).1, ((a s.1).2, s.2 + 1))

/-! ## `promisesWithRetry` on promises in flight -/

/-- A promise that settles at some turn of the job queue: before tick `settlesAt` it is
pending, from that tick on it is settled with `outcome`. -/
structure TimedPromise where
  settlesAt : Nat
  outcome : Settled
  deriving DecidableEq, Repr

/-- The first member, by position, that is rejected and has settled by tick `now`. -/
def firstRejectedBy (now : Nat) : List TimedPromise → Option Val
  | [] => none
  | p :: rest =>
    match p.outcome with
    | .rejected reason => if p.settlesAt ≤ now then some reason else firstRejectedBy now rest
    | .fulfilled _ => firstRejectedBy now rest

/-- The earliest rejection among the members, by tick and then by position. -/
def earliestRejection : List TimedPromise → Option (Nat × Val)
  | [] => none
  | p :: rest =>
    match p.outcome, earliestRejection rest with
    | .rejected reason, some (tick, other) =>
      if p.settlesAt ≤ tick then some (p.settlesAt, reason) else some (tick, other)
    | .rejected reason, none => some (p.settlesAt, reason)
    | .fulfilled _, best => best

/-- The values of the fulfilled members, in input order. -/
def fulfilledValues : List TimedPromise → List ActionResult
  | [] => []
  | p :: rest =>
    match p.outcome with
    | .fulfilled value => value :: fulfilledValues rest
    | .rejected _ => fulfilledValues rest

/-- The tick at which the last member settles. -/
def lastSettlement : List TimedPromise → Nat
  | [] => 0
  | p :: rest => max p.settlesAt (lastSettlement rest)

/-- The expression `await Promise.all(promises)` evaluated at tick `now`: what it gives and
the tick at which the caller goes on, one tick after `Promise.all` has settled.  Members
already rejected at `now` are noticed in input order; failing that, the first member to
reject in time decides; without any rejection the values come when the last member has
settled. -/
def awaitPromiseAll (promises : List TimedPromise) (now : Nat) :
    Except Val (List ActionResult) × Nat :=
  match firstRejectedBy now promises with
  | some reason => (.error reason, now + 1)
  | none =>
    match earliestRejection promises with
    | some (tick, reason) => (.error reason, max now tick + 1)
    | none => (.ok (fulfilledValues promises), max now (lastSettlement promises) + 1)

/-- The `try`/`catch` block of `doPromisesWithRetry` at tick `now`. -/
def tryAwaitPromiseAll (promises : List TimedPromise) (now : Nat) : BatchResult :=
  match (awaitPromiseAll promises now).1 with
  | .ok values => .values values
  | .error error => .failure error

/-- The function `doPromisesWithRetry(promises, maxTries, attempt)` called at tick `now` on
promises that may still be pending. -/
def doPromisesWithRetryInFlight (promises : List TimedPromise) (maxTries : Int)
    (attempt : Int) (now : Nat) : BatchResult :=
  let results := tryAwaitPromiseAll promises now
  let error := results.errorField
  if !error.truthy || attempt >= maxTries then
    results
  else
    doPromisesWithRetryInFlight promises maxTries (attempt + 1)
      (awaitPromiseAll promises now).2
termination_by (maxTries - attempt).toNat
decreasing_by
  simp_wf
  simp only [Bool.or_eq_true, decide_eq_true_eq, not_or, not_le] at *
  omega

/-- The function `promisesWithRetry(promises, maxTries = MAX_TRIES)` called at tick `now` on
promises that may still be pending; `none` is the omitted argument. -/
def promisesWithRetryInFlight (promises : List TimedPromise) (maxTries : Option Int)
    (now : Nat) : BatchResult :=
  let results := doPromisesWithRetryInFlight promises (maxTries.getD MAX_TRIES) 1 now
  results

/-! ### A small concrete store -/

/-- A store state holding just what the selectors of this file read. -/
structure Store where
  currentChannelId : String
  currentTeamId : String
  channels : List Channel
  myMembers : List ChannelMembership
  teams : List Team
  deriving DecidableEq, Repr

/-- Selectors over `Store` by plain lookup; a team's redirect channel is its first channel,
the view history is empty, and marking as viewed and read gives one action per kind. -/
def storeCollaborators : Collaborators Store where
  getCurrentChannelId := fun s => s.currentChannelId
  getCurrentTeamId := fun s => s.currentTeamId
  getChannel := fun s id => s.channels.find? fun ch => ch.id == id
  getMyChannelMember := fun s id => s.myMembers.find? fun m => m.channel_id == id
  getRedirectChannelForTeam := fun s teamId =>
    s.channels.find? fun ch => ch.team_id == some teamId
  getTeamByName := fun s name => s.teams.find? fun tm => tm.name == name
  getChannelByName := fun s name => s.channels.find? fun ch => ch.display_name == name
  getLastViewedChannelForTeam := fun _ _ => none
  getPenultimateViewedChannelForTeam := fun _ _ => none
  canSelectChannel := fun _ ch => ch.isSome
  markChannelAsViewedAndReadActions := fun _ _ _ =>
    [Event.plain "MOCK_CHANNEL_MARK_AS_READ", Event.plain "MOCK_CHANNEL_MARK_AS_VIEWED"]
  DEFAULT_CHANNEL_NOT_FOUND := "default_channel_not_found"

/-- The store of the tests: active channel `A`, which is known, and a second known channel
`B` with a membership, in team `T`. -/
def storeAB : Store where
  currentChannelId := "A"
  currentTeamId := "T"
  channels := [{ id := "A", display_name := "Test Channel" },
    { id := "B", display_name := "Test Channel" }]
  myMembers := [{ channel_id := "A", user_id := "U" }, { channel_id := "B", user_id := "U" }]
  teams := [{ id := "T", name := "current-team-name" }]

/-- The selectors of `storeCollaborators` with a view history: the last viewed channel of a
team is the first channel of the store, the one before it the second. -/
def storeCollaboratorsViewed : Collaborators Store :=
  { storeCollaborators with
    getLastViewedChannelForTeam := fun s _ => s.channels.head?
    getPenultimateViewedChannelForTeam := fun s _ => s.channels.tail.head? }

/-- A store whose only channel `B` belongs to team `T2`, while the team `T` is current and no
channel is active. -/
def storeCross : Store where
  currentChannelId := ""
  currentTeamId := "T"
  channels := [{ id := "B", display_name := "town-square", team_id := some "T2" }]
  myMembers := []
  teams := [{ id := "T", name := "current-team-name" }]

/-- Post collaborators over `Store` for a world that is the number of fetches so far: the
loaded post ids are given per channel, the chunk size is 15, and each fetch settles with the
given outcome. -/
def postCollaborators (loaded : List (String × List String)) (o : Outcome) :
    PostCollaborators Store Nat where
  getPostIdsInChannel := fun _ id => loaded.lookup id
  getChannelSinceValue := fun _ _ ids => ids.length
  POST_VISIBILITY_CHUNK_SIZE := 15
  perform := fun _ n => (o, n + 1)

/-- The thunk `postAction` that `loadPostsIfNecessaryWithRetry(channelId)` builds before it
fetches (lines 27 to 34 of its file). -/
def postActionFor {State σ : Type} (p : PostCollaborators State σ) (channelId : String)
    (state : State) : PostAction :=
  match p.getPostIdsInChannel state channelId with
  | none => PostAction.getPosts channelId
  | some postIds =>
    if (postIds.length : Int) < p.POST_VISIBILITY_CHUNK_SIZE then
      PostAction.getPosts channelId
    else
      PostAction.getPostsSince channelId (p.getChannelSinceValue state channelId postIds)

/-- The result the retried fetch of `loadPostsIfNecessaryWithRetry(channelId)` ends with in
the world `w`: what `await dispatch(dispatchWithRetry(postAction))` leaves in `result`. -/
def fetchResult {State σ : Type} (p : PostCollaborators State σ) (channelId : String)
    (state : State) (w : σ) : ActionResult :=
  capture (dispatch (dispatchWithRetry (p.perform (postActionFor p channelId state)) none) w).1

/-- A store with two teams: the current team `T` holds the active channel `A`
(`town-square`) and the channel `B` (`off-topic`), the team `T2` holds the channel `C`. -/
def storeLinked : Store where
  currentChannelId := "A"
  currentTeamId := "T"
  channels := [{ id := "A", display_name := "town-square", team_id := some "T" },
    { id := "B", display_name := "off-topic", team_id := some "T" },
    { id := "C", display_name := "water-cooler", team_id := some "T2" }]
  myMembers := []
  teams := [{ id := "T", name := "current-team-name" }, { id := "T2", name := "other-team" }]

/-! ## Lemmas on the retry loop -/

theorem doDispatchWithRetry_unfold {σ : Type} (action : ActionFunc σ) (maxTries attempt : Int)
    (w : σ) :
    doDispatchWithRetry action maxTries attempt w =
      if !(field (tryDispatch action w).1.error).truthy || attempt >= maxTries then
        (.returned (tryDispatch action w).1, (tryDispatch action w).2)
      else
        doDispatchWithRetry action maxTries (attempt + 1) (tryDispatch action w).2 := by
  rw [doDispatchWithRetry]
  rfl

theorem tryDispatch_traced {σ : Type} (a : ActionFunc σ) (w : σ) (log : List Outcome) :
    tryDispatch (traced a) (w, log) = (capture (a w).1, ((a w).2, log ++ [(a w).1])) := by
  unfold tryDispatch dispatch traced capture
  cases h : (a w).1 <;> simp [h]

theorem outcomes_length {σ : Type} (a : ActionFunc σ) (n : Nat) (w : σ) :
    (outcomes a w n).length = n := by
  induction n generalizing w with
  | zero => rfl
  | succ n ih => simp [outcomes, ih]

theorem outcomes_succ_last {σ : Type} (a : ActionFunc σ) (n : Nat) (w : σ) :
    outcomes a w (n + 1) = outcomes a w n ++ [outcomeAt a w n] := by
  induction n generalizing w with
  | zero => simp [outcomes, outcomeAt, worldAfter]
  | succ n ih =>
    rw [outcomes, ih (a w).2]
    simp [outcomes, outcomeAt, worldAfter]

/-- The loop on a recorded action stops at the first attempt `j + 1` that has no truthy
error or has used up the tries: it returns what that attempt left and has dispatched the
action `j + 1` times. -/
theorem doDispatchWithRetry_stops {σ : Type} (a : ActionFunc σ) (maxTries : Int) (j : Nat) :
    ∀ (attempt : Int) (w : σ) (log : List Outcome),
      (∀ i, i < j → (outcomeAt a w i).failed = true ∧ attempt + i < maxTries) →
      ((outcomeAt a w j).failed = false ∨ attempt + j ≥ maxTries) →
      doDispatchWithRetry (traced a) maxTries attempt (w, log) =
        (.returned (capture (outcomeAt a w j)),
          (worldAfter a w (j + 1), log ++ outcomes a w (j + 1))) := by
  induction j with
  | zero =>
    intro attempt w log _ hstop
    rw [doDispatchWithRetry_unfold, tryDispatch_traced]
    have hc : (!(field (capture (a w).1).error).truthy || decide (attempt ≥ maxTries)) = true := by
      rcases hstop with h | h
      · simp only [Outcome.failed, outcomeAt, worldAfter] at h
        simp [h]
      · have : attempt ≥ maxTries := by simpa using h
        simp [this]
    simp only [hc, if_true]
    simp [outcomeAt, worldAfter, outcomes]
  | succ j ih =>
    intro attempt w log hfail hstop
    rw [doDispatchWithRetry_unfold, tryDispatch_traced]
    have h0 := hfail 0 (Nat.succ_pos j)
    have hc : (!(field (capture (a w).1).error).truthy || decide (attempt ≥ maxTries)) = false := by
      have h1 : (field (capture (a w).1).error).truthy = true := by
        simpa [Outcome.failed, outcomeAt, worldAfter] using h0.1
      have h2 : ¬ attempt ≥ maxTries := by
        have := h0.2
        simp only [Nat.cast_zero, add_zero] at this
        omega
      simp [h1, h2]
    simp only [hc]
    rw [ih (attempt + 1) (a w).2 (log ++ [(a w).1])]
    · simp [outcomeAt, worldAfter, outcomes]
    · intro i hi
      have := hfail (i + 1) (Nat.succ_lt_succ hi)
      refine ⟨by simpa [outcomeAt, worldAfter] using this.1, ?_⟩
      have h2 := this.2
      push_cast at h2
      omega
    · rcases hstop with h | h
      · left
        simpa [outcomeAt, worldAfter] using h
      · right
        push_cast at h
        omega

/-- On a recorded action the loop always stops: there is an attempt `j + 1` whose captured
result is returned, after exactly `j + 1` dispatches. -/
theorem doDispatchWithRetry_returns {σ : Type} (a : ActionFunc σ) (maxTries attempt : Int)
    (w : σ) (log : List Outcome) :
    ∃ j, doDispatchWithRetry (traced a) maxTries attempt (w, log) =
      (.returned (capture (outcomeAt a w j)),
        (worldAfter a w (j + 1), log ++ outcomes a w (j + 1))) := by
  have hex : ∃ i : Nat, (outcomeAt a w i).failed = false ∨ attempt + i ≥ maxTries := by
    refine ⟨(maxTries - attempt).toNat, Or.inr ?_⟩
    have := Int.self_le_toNat (maxTries - attempt)
    omega
  refine ⟨Nat.find hex, doDispatchWithRetry_stops a maxTries _ attempt w log ?_ (Nat.find_spec hex)⟩
  intro i hi
  have h := Nat.find_min hex hi
  rw [not_or] at h
  refine ⟨by simpa using h.1, by omega⟩

/-- The run of the loop on a recorded action, in full: it stops at an attempt `j + 1`; the
dispatches are the first `j + 1` consecutive ones of the action; each attempt before the
last has left a truthy error and was made within the tries; the last one has left no
truthy error or has used up the tries. -/
theorem doDispatchWithRetry_trace {σ : Type} (a : ActionFunc σ) (maxTries attempt : Int)
    (w : σ) (log : List Outcome) :
    ∃ j, doDispatchWithRetry (traced a) maxTries attempt (w, log) =
        (.returned (capture (outcomeAt a w j)),
          (worldAfter a w (j + 1), log ++ outcomes a w (j + 1))) ∧
      (∀ i, i < j → (outcomeAt a w i).failed = true ∧ attempt + i < maxTries) ∧
      ((outcomeAt a w j).failed = false ∨ attempt + j ≥ maxTries) := by
  have hex : ∃ i : Nat, (outcomeAt a w i).failed = false ∨ attempt + i ≥ maxTries := by
    refine ⟨(maxTries - attempt).toNat, Or.inr ?_⟩
    have := Int.self_le_toNat (maxTries - attempt)
    omega
  have hpre : ∀ i, i < Nat.find hex →
      (outcomeAt a w i).failed = true ∧ attempt + i < maxTries := by
    intro i hi
    have h := Nat.find_min hex hi
    rw [not_or] at h
    exact ⟨by simpa using h.1, by omega⟩
  exact ⟨Nat.find hex,
    doDispatchWithRetry_stops a maxTries _ attempt w log hpre (Nat.find_spec hex), hpre,
    Nat.find_spec hex⟩

theorem doPromisesWithRetry_unfold (promises : List Settled) (maxTries attempt : Int) :
    doPromisesWithRetry promises maxTries attempt =
      if !(tryPromiseAll promises).errorField.truthy || attempt >= maxTries then
        tryPromiseAll promises
      else
        doPromisesWithRetry promises maxTries (attempt + 1) := by
  rw [doPromisesWithRetry]

theorem promiseAllAwaits_unfold (promises : List Settled) (maxTries attempt : Int) :
    promiseAllAwaits promises maxTries attempt =
      if !(tryPromiseAll promises).errorField.truthy || attempt >= maxTries then
        1
      else
        1 + promiseAllAwaits promises maxTries (attempt + 1) := by
  rw [promiseAllAwaits]

/-- Whatever the action does, the loop settles with a returned value, never a thrown one. -/
theorem doDispatchWithRetry_no_throw {σ : Type} (action : ActionFunc σ) (maxTries : Int) :
    ∀ (d : Nat) (attempt : Int) (w : σ), (maxTries - attempt).toNat = d →
      ∃ r, (doDispatchWithRetry action maxTries attempt w).1 = .returned r := by
  intro d
  induction d with
  | zero =>
    intro attempt w hd
    rw [doDispatchWithRetry_unfold]
    have h : attempt ≥ maxTries := by omega
    simp [h]
  | succ d ih =>
    intro attempt w hd
    rw [doDispatchWithRetry_unfold]
    split
    · exact ⟨_, rfl⟩
    · exact ih (attempt + 1) _ (by omega)

/-- Awaiting the same settled promises again gives the same thing: the loop returns what
its first `Promise.all` gave. -/
theorem doPromisesWithRetry_eq_first (promises : List Settled) (maxTries : Int) :
    ∀ (d : Nat) (attempt : Int), (maxTries - attempt).toNat = d →
      doPromisesWithRetry promises maxTries attempt = tryPromiseAll promises := by
  intro d
  induction d with
  | zero =>
    intro attempt hd
    rw [doPromisesWithRetry_unfold]
    have h : attempt ≥ maxTries := by omega
    simp [h]
  | succ d ih =>
    intro attempt hd
    rw [doPromisesWithRetry_unfold]
    split
    · rfl
    · exact ih (attempt + 1) (by omega)

/-! ## The retry helper `dispatchWithRetry` -/

/-- C1, as stated, fails: an action that throws the value `undefined` at every dispatch
throws on every attempt, yet `dispatchWithRetry(action, 3)` dispatches it once, not 3 times,
and returns `{error: undefined}` after that first attempt. -/
theorem dispatchWithRetry_throw_undefined_once :
    dispatchWithRetry (traced (always (.thrown .undefined))) (some 3) ((), []) =
        (.returned { error := some .undefined }, ((), [.thrown .undefined])) ∧
      (dispatchWithRetry (traced (always (.thrown .undefined))) (some 3) ((), [])).2.2.length
        ≠ 3 := by
  have h : dispatchWithRetry (traced (always (.thrown .undefined))) (some 3) ((), []) =
      (.returned { error := some .undefined }, ((), [.thrown .undefined])) := by
    unfold dispatchWithRetry dispatch
    simp only [Option.getD_some]
    rw [doDispatchWithRetry_stops (always (.thrown .undefined)) 3 0 1 () []
      (fun i hi => absurd hi (Nat.not_lt_zero i)) (Or.inl rfl)]
    rfl
  exact ⟨h, by rw [h]; decide⟩

/-- C1, amended: for `maxTries = n ≥ 1` and an action each of whose first `n` attempts ends
with a truthy error (a returned result whose `error` is truthy, or a thrown truthy value),
`dispatchWithRetry(action, n)` dispatches the action exactly `n` times, the dispatches being
the first `n` consecutive ones, and its result is what the `n`-th attempt left: the failure
it returned, or `{error: e}` for the value `e` it threw. -/
theorem dispatchWithRetry_all_fail {σ : Type} (a : ActionFunc σ) (n : Nat) (w : σ)
    (hn : 1 ≤ n) (hfail : ∀ i, i < n → (outcomeAt a w i).failed = true) :
    (dispatchWithRetry (traced a) (some (n : Int)) (w, [])).1 =
        .returned (capture (outcomeAt a w (n - 1))) ∧
      (dispatchWithRetry (traced a) (some (n : Int)) (w, [])).2.2 = outcomes a w n ∧
      (dispatchWithRetry (traced a) (some (n : Int)) (w, [])).2.2.length = n ∧
      (capture (outcomeAt a w (n - 1))).error.isSome = true := by
  obtain ⟨m, rfl⟩ : ∃ m, n = m + 1 := ⟨n - 1, by omega⟩
  have h : dispatchWithRetry (traced a) (some ((m + 1 : Nat) : Int)) (w, []) =
      (.returned (capture (outcomeAt a w m)), (worldAfter a w (m + 1), outcomes a w (m + 1))) := by
    unfold dispatchWithRetry dispatch
    simp only [Option.getD_some]
    rw [doDispatchWithRetry_stops a _ m 1 w []]
    · simp
    · intro i hi
      refine ⟨hfail i (by omega), ?_⟩
      push_cast
      omega
    · right
      push_cast
      omega
  have hlast := hfail m (by omega)
  refine ⟨by rw [h]; rfl, by rw [h], by rw [h]; exact outcomes_length a (m + 1) w, ?_⟩
  simp only [Nat.add_sub_cancel]
  unfold Outcome.failed field at hlast
  cases he : (capture (outcomeAt a w m)).error with
  | none => rw [he] at hlast; simp [Val.truthy] at hlast
  | some v => rfl

/-- Witness for C1 as amended: an action that returns `{error: 'error'}` at
every dispatch, with `maxTries = 2`. -/
theorem dispatchWithRetry_all_fail_witness :
    (dispatchWithRetry (traced (always (.returned { error := some (.str "error") })))
        (some ((2 : Nat) : Int)) ((), [])).1 =
        .returned (capture (outcomeAt (always (.returned { error := some (.str "error") })) () (2 - 1))) ∧
      (dispatchWithRetry (traced (always (.returned { error := some (.str "error") })))
        (some ((2 : Nat) : Int)) ((), [])).2.2 =
        outcomes (always (.returned { error := some (.str "error") })) () 2 ∧
      (dispatchWithRetry (traced (always (.returned { error := some (.str "error") })))
        (some ((2 : Nat) : Int)) ((), [])).2.2.length = 2 ∧
      (capture (outcomeAt (always (.returned { error := some (.str "error") })) () (2 - 1))).error.isSome
        = true :=
  dispatchWithRetry_all_fail (always (.returned { error := some (.str "error") })) 2 ()
    (by decide) (fun _ _ => rfl)

/-- C2, as stated, fails: an action whose first dispatch throws `undefined` and whose second
dispatch returns `{data: true}` fails at its first dispatch and succeeds at its second, yet
`dispatchWithRetry(action, 3)` dispatches it once, not twice, and returns
`{error: undefined}`, not the result of the second dispatch. -/
theorem dispatchWithRetry_falsy_throw_hides_success :
    dispatchWithRetry
        (traced (scripted fun i =>
          if i = 0 then .thrown .undefined else .returned { data := some (.bool true) }))
        (some 3) (0, []) =
        (.returned { error := some .undefined }, (1, [.thrown .undefined])) ∧
      (dispatchWithRetry
        (traced (scripted fun i =>
          if i = 0 then .thrown .undefined else .returned { data := some (.bool true) }))
        (some 3) (0, [])).2.2.length ≠ 2 ∧
      (dispatchWithRetry
        (traced (scripted fun i =>
          if i = 0 then .thrown .undefined else .returned { data := some (.bool true) }))
        (some 3) (0, [])).1 ≠ .returned { data := some (.bool true) } := by
  have h : dispatchWithRetry
      (traced (scripted fun i =>
        if i = 0 then .thrown .undefined else .returned { data := some (.bool true) }))
      (some 3) (0, []) =
      (.returned { error := some .undefined }, (1, [.thrown .undefined])) := by
    unfold dispatchWithRetry dispatch
    simp only [Option.getD_some]
    rw [doDispatchWithRetry_stops
      (scripted fun i =>
        if i = 0 then .thrown .undefined else .returned { data := some (.bool true) })
      3 0 1 0 [] (fun i hi => absurd hi (Nat.not_lt_zero i)) (Or.inl rfl)]
    rfl
  exact ⟨h, by rw [h]; decide, by rw [h]; decide⟩

/-- C2, amended: for `maxTries = n` and `1 ≤ k ≤ n` (so `n ≥ 1`), an action whose first
`k - 1` dispatches each leave a truthy error (a returned result whose `error` is truthy, or
a thrown truthy value) and whose `k`-th dispatch succeeds (it returns a result `r` without a
truthy error) is dispatched exactly `k` times by `dispatchWithRetry(action, n)`, and the
returned result is `r`. -/
theorem dispatchWithRetry_success_at {σ : Type} (a : ActionFunc σ) (n k : Nat) (w : σ)
    (r : ActionResult) (hk : 1 ≤ k) (hkn : k ≤ n)
    (hfail : ∀ i, i < k - 1 → (outcomeAt a w i).failed = true)
    (hret : outcomeAt a w (k - 1) = .returned r) (hok : (field r.error).truthy = false) :
    (dispatchWithRetry (traced a) (some (n : Int)) (w, [])).1 = .returned r ∧
      (dispatchWithRetry (traced a) (some (n : Int)) (w, [])).2.2 = outcomes a w k ∧
      (dispatchWithRetry (traced a) (some (n : Int)) (w, [])).2.2.length = k := by
  obtain ⟨m, rfl⟩ : ∃ m, k = m + 1 := ⟨k - 1, by omega⟩
  simp only [Nat.add_sub_cancel] at hfail hret
  have h : dispatchWithRetry (traced a) (some (n : Int)) (w, []) =
      (.returned r, (worldAfter a w (m + 1), outcomes a w (m + 1))) := by
    unfold dispatchWithRetry dispatch
    simp only [Option.getD_some]
    rw [doDispatchWithRetry_stops a _ m 1 w []]
    · simp [hret, capture]
    · intro i hi
      refine ⟨hfail i hi, ?_⟩
      omega
    · left
      rw [hret]
      simpa [Outcome.failed, capture] using hok
  exact ⟨by rw [h], by rw [h], by rw [h]; exact outcomes_length a (m + 1) w⟩

/-- Witness for C2 as amended: the first dispatch throws `'error'`, the
second returns `{data: true}`; with `maxTries = 3` the action is dispatched twice. -/
theorem dispatchWithRetry_success_at_witness :
    (dispatchWithRetry
        (traced (scripted fun i =>
          if i = 0 then .thrown (.str "error") else .returned { data := some (.bool true) }))
        (some ((3 : Nat) : Int)) (0, [])).1 = .returned { data := some (.bool true) } ∧
      (dispatchWithRetry
        (traced (scripted fun i =>
          if i = 0 then .thrown (.str "error") else .returned { data := some (.bool true) }))
        (some ((3 : Nat) : Int)) (0, [])).2.2 =
        outcomes (scripted fun i =>
          if i = 0 then .thrown (.str "error") else .returned { data := some (.bool true) }) 0 2 ∧
      (dispatchWithRetry
        (traced (scripted fun i =>
          if i = 0 then .thrown (.str "error") else .returned { data := some (.bool true) }))
        (some ((3 : Nat) : Int)) (0, [])).2.2.length = 2 :=
  dispatchWithRetry_success_at
    (scripted fun i =>
      if i = 0 then .thrown (.str "error") else .returned { data := some (.bool true) })
    3 2 0 { data := some (.bool true) } (by decide) (by decide)
    (fun i hi => by
      have : i = 0 := by omega
      subst this
      decide)
    (by decide) (by decide)

/-- On actions of the declared type `dispatchWithRetry` never settles with a thrown value:
for every `maxTries` (given or omitted) and every world it returns a result value; that
value is what the final attempt left, so when the final attempt threw `e` the result is
`{error: e}`. -/
theorem dispatchWithRetry_never_throws {σ : Type} (a : ActionFunc σ) (maxTries : Option Int)
    (w : σ) :
    (∃ r, (dispatchWithRetry a maxTries w).1 = .returned r) ∧
      ∃ result last,
        (dispatchWithRetry (traced a) maxTries (w, [])).1 = .returned result ∧
        (dispatchWithRetry (traced a) maxTries (w, [])).2.2.getLast? = some last ∧
        result = capture last ∧
        ∀ e, last = .thrown e → result = { error := some e } := by
  refine ⟨doDispatchWithRetry_no_throw a _ _ 1 w rfl, ?_⟩
  obtain ⟨j, hj⟩ := doDispatchWithRetry_returns a (maxTries.getD MAX_TRIES) 1 w []
  have h : dispatchWithRetry (traced a) maxTries (w, []) =
      (.returned (capture (outcomeAt a w j)),
        (worldAfter a w (j + 1), [] ++ outcomes a w (j + 1))) := hj
  refine ⟨capture (outcomeAt a w j), outcomeAt a w j, by rw [h], ?_, rfl, ?_⟩
  · rw [h, outcomes_succ_last]
    simp
  · intro e he
    rw [he]
    rfl

/-- On actions of the declared type, `maxTries = 1` gives exactly one dispatch, whatever
that attempt does, and the result is that attempt's result, or `{error}` for a thrown
value. -/
theorem dispatchWithRetry_one_try {σ : Type} (a : ActionFunc σ) (w : σ) :
    dispatchWithRetry (traced a) (some 1) (w, []) =
        (.returned (capture (a w).1), ((a w).2, [(a w).1])) ∧
      (dispatchWithRetry (traced a) (some 1) (w, [])).2.2.length = 1 := by
  have h : dispatchWithRetry (traced a) (some 1) (w, []) =
      (.returned (capture (a w).1), ((a w).2, [(a w).1])) := by
    unfold dispatchWithRetry dispatch
    simp only [Option.getD_some]
    rw [doDispatchWithRetry_stops a 1 0 1 w []
      (fun i hi => absurd hi (Nat.not_lt_zero i)) (Or.inr (by simp))]
    rfl
  exact ⟨h, by rw [h]; rfl⟩

/-- C5, as stated, fails in its last part: an action that throws `undefined` at every
dispatch fails always, yet with `maxTries` left out it is dispatched once, not 3 times. -/
theorem dispatchWithRetry_default_falsy_throw_once :
    dispatchWithRetry (traced (always (.thrown .undefined))) none ((), []) =
        (.returned { error := some .undefined }, ((), [.thrown .undefined])) ∧
      (dispatchWithRetry (traced (always (.thrown .undefined))) none ((), [])).2.2.length
        ≠ 3 := by
  have h : dispatchWithRetry (traced (always (.thrown .undefined))) none ((), []) =
      (.returned { error := some .undefined }, ((), [.thrown .undefined])) := by
    unfold dispatchWithRetry dispatch
    simp only [Option.getD_none]
    rw [doDispatchWithRetry_stops (always (.thrown .undefined)) MAX_TRIES 0 1 () []
      (fun i hi => absurd hi (Nat.not_lt_zero i)) (Or.inl rfl)]
    rfl
  exact ⟨h, by rw [h]; decide⟩

/-- C5, amended: leaving `maxTries` out is giving 3.  For every action
`dispatchWithRetry(action)` is the same thunk as `dispatchWithRetry(action, 3)`, with the
same dispatches of the action and the same result; an action each of whose first 3
dispatches leaves a truthy error is dispatched exactly 3 times. -/
theorem dispatchWithRetry_default_three {σ : Type} (a : ActionFunc σ) (w : σ) :
    dispatchWithRetry a none = dispatchWithRetry a (some 3) ∧
      dispatchWithRetry (traced a) none (w, []) =
        dispatchWithRetry (traced a) (some 3) (w, []) ∧
      ((∀ i, i < 3 → (outcomeAt a w i).failed = true) →
        (dispatchWithRetry (traced a) none (w, [])).2.2.length = 3) := by
  refine ⟨rfl, rfl, fun hfail => ?_⟩
  have h : dispatchWithRetry (traced a) none (w, []) =
      (.returned (capture (outcomeAt a w 2)), (worldAfter a w 3, [] ++ outcomes a w 3)) := by
    unfold dispatchWithRetry dispatch
    exact doDispatchWithRetry_stops a _ 2 1 w []
      (fun i hi => ⟨hfail i (by omega), by simp only [Option.getD_none, MAX_TRIES]; omega⟩)
      (Or.inr (by simp [MAX_TRIES]))
  rw [h]
  simp [outcomes_length]

/-- Witness for C5 as amended: an action that throws `'error'` at every
dispatch is dispatched 3 times when `maxTries` is left out. -/
theorem dispatchWithRetry_default_three_witness :
    (dispatchWithRetry (traced (always (.thrown (.str "error")))) none ((), [])).2.2.length
      = 3 :=
  (dispatchWithRetry_default_three (always (.thrown (.str "error"))) ()).2.2 (fun _ _ => rfl)

/-! ## The batch helper `promisesWithRetry` -/

/-- C6, on the code: a batch of 3 operations whose 2nd promise is rejected with `'error'`,
with `maxTries = 3`.  The batch is awaited 3 times, yet the operations are invoked 3 times in
all (once each, when the promises are created), not 9 times; the result is
`{error: 'error'}`. -/
theorem promisesWithRetry_never_reinvokes :
    callPromisesWithRetry
        [operation (.fulfilled { data := some (.num 1) }),
          operation (.rejected (.str "error")),
          operation (.fulfilled { data := some (.num 3) })] (some 3) 0 =
        (.failure (.str "error"), 3) ∧
      promiseAllAwaits
        [.fulfilled { data := some (.num 1) }, .rejected (.str "error"),
          .fulfilled { data := some (.num 3) }] 3 1 = 3 := by
  constructor
  · unfold callPromisesWithRetry promisesWithRetry
    simp only [invokeAll, operation, Option.getD_some]
    rw [doPromisesWithRetry_eq_first _ _ _ _ rfl]
    rfl
  · rw [promiseAllAwaits_unfold, promiseAllAwaits_unfold, promiseAllAwaits_unfold]
    decide

/-! ## Channel selection -/

/-- C7: selecting the channel that is already active does nothing: for every state,
`handleSelectChannel` called with the current channel id returns `{data: false}`, makes no
`dispatch` call at all (no `BATCH_SWITCH_CHANNEL` batch, no prefetch of posts) and publishes
nothing. -/
theorem handleSelectChannel_current_noop {State : Type} (c : Collaborators State)
    (state : State) :
    handleSelectChannel c (c.getCurrentChannelId state) state =
        { dispatched := [], emitted := [], result := { data := some (.bool false) } } ∧
      (handleSelectChannel c (c.getCurrentChannelId state) state).events = [] := by
  simp [handleSelectChannel, Run.events]

/-- C8: with active channel `A` and a channel `B ≠ A` that the state knows,
`handleSelectChannel(B)` dispatches first the prefetch `loadPostsIfNecessaryWithRetry(B)`
and then one batch tagged `BATCH_SWITCH_CHANNEL`, whose payload is
`markChannelAsViewedAndReadActions(state, B, A)` followed by
`selectChannel(B, {channel, member, teamId})` as its last element; these are its only
dispatches, and it returns `{data: true}`. -/
theorem handleSelectChannel_switch {State : Type} (c : Collaborators State) (state : State)
    (B : String) (channel : Channel) (hne : B ≠ c.getCurrentChannelId state)
    (hch : c.getChannel state B = some channel) :
    handleSelectChannel c B state =
        { dispatched :=
            [Dispatched.loadPostsIfNecessaryWithRetry B,
              Dispatched.batchActions
                (c.markChannelAsViewedAndReadActions state B (c.getCurrentChannelId state) ++
                  [Event.selectChannel B
                    { channel := channel, member := c.getMyChannelMember state B,
                      teamId := teamIdOr channel.team_id (c.getCurrentTeamId state) }])
                "BATCH_SWITCH_CHANNEL"],
          emitted := [],
          result := { data := some (.bool true) } } ∧
      (handleSelectChannel c B state).batches "BATCH_SWITCH_CHANNEL" =
        [c.markChannelAsViewedAndReadActions state B (c.getCurrentChannelId state) ++
          [Event.selectChannel B
            { channel := channel, member := c.getMyChannelMember state B,
              teamId := teamIdOr channel.team_id (c.getCurrentTeamId state) }]] := by
  have h : ¬ c.getCurrentChannelId state = B := fun h => hne h.symm
  simp [handleSelectChannel, Run.batches, hne, hch, h]

/-- Witness for C8: the store of the tests, active channel `A`,
selecting `B`. -/
theorem handleSelectChannel_switch_witness :
    handleSelectChannel storeCollaborators "B" storeAB =
        { dispatched :=
            [Dispatched.loadPostsIfNecessaryWithRetry "B",
              Dispatched.batchActions
                (storeCollaborators.markChannelAsViewedAndReadActions storeAB "B"
                    (storeCollaborators.getCurrentChannelId storeAB) ++
                  [Event.selectChannel "B"
                    { channel := { id := "B", display_name := "Test Channel" },
                      member := storeCollaborators.getMyChannelMember storeAB "B",
                      teamId := teamIdOr (Channel.team_id { id := "B", display_name := "Test Channel" })
                        (storeCollaborators.getCurrentTeamId storeAB) }])
                "BATCH_SWITCH_CHANNEL"],
          emitted := [],
          result := { data := some (.bool true) } } ∧
      (handleSelectChannel storeCollaborators "B" storeAB).batches "BATCH_SWITCH_CHANNEL" =
        [storeCollaborators.markChannelAsViewedAndReadActions storeAB "B"
            (storeCollaborators.getCurrentChannelId storeAB) ++
          [Event.selectChannel "B"
            { channel := { id := "B", display_name := "Test Channel" },
              member := storeCollaborators.getMyChannelMember storeAB "B",
              teamId := teamIdOr (Channel.team_id { id := "B", display_name := "Test Channel" })
                (storeCollaborators.getCurrentTeamId storeAB) }]] :=
  handleSelectChannel_switch storeCollaborators storeAB "B"
    { id := "B", display_name := "Test Channel" } (by decide) (by decide)

/-- C9, as stated, fails: in the store of the tests the active channel is `A`; selecting the
id `Z`, which is not the active one and which the store does not know, emits no
state-update event. -/
theorem handleSelectChannel_unknown_no_events :
    (handleSelectChannel storeCollaborators "Z" storeAB).events = [] ∧
      "Z" ≠ storeCollaborators.getCurrentChannelId storeAB := by
  decide

/-- C9, amended: for every state and channel id, the list of state-update events emitted by
`handleSelectChannel` is empty only when the requested id is the currently active channel
id or the state has no channel under that id; in both of these cases it is empty. -/
theorem handleSelectChannel_events_empty_iff {State : Type} (c : Collaborators State)
    (state : State) (channelId : String) :
    (handleSelectChannel c channelId state).events = [] ↔
      (channelId = c.getCurrentChannelId state ∨ c.getChannel state channelId = none) := by
  by_cases h : channelId = c.getCurrentChannelId state
  · simp [handleSelectChannel, Run.events, h]
  · have h1 : ¬ c.getCurrentChannelId state = channelId := fun e => h e.symm
    cases hch : c.getChannel state channelId with
    | none => simp [handleSelectChannel, Run.events, h, hch]
    | some channel => simp [handleSelectChannel, Run.events, h, h1, hch]

/-- C10: when `getRedirectChannelForTeam` finds no channel for the team,
`selectRedirectChannelForTeam` returns the failure whose error has id
`mobile.default_channel.error` and a default message, publishes `DEFAULT_CHANNEL_NOT_FOUND`
with that same error exactly once, and makes no `dispatch` call, so that no state-update
event is emitted. -/
theorem selectRedirectChannelForTeam_not_found {State : Type} (c : Collaborators State)
    (state : State) (teamId : String) (hnone : c.getRedirectChannelForTeam state teamId = none) :
    selectRedirectChannelForTeam c teamId state =
        { dispatched := [],
          emitted := [(c.DEFAULT_CHANNEL_NOT_FOUND,
            Val.obj [("id", "mobile.default_channel.error"),
              ("defaultMessage", "A default channel for this team was not found.")])],
          result := { error := some (Val.obj [("id", "mobile.default_channel.error"),
              ("defaultMessage", "A default channel for this team was not found.")]) } } ∧
      (selectRedirectChannelForTeam c teamId state).events = [] := by
  simp [selectRedirectChannelForTeam, Run.events, hnone, t]

/-- Witness for C10: in the store of the tests no
channel carries a team id, so team `T` has no redirect channel. -/
theorem selectRedirectChannelForTeam_not_found_witness :
    selectRedirectChannelForTeam storeCollaborators "T" storeAB =
        { dispatched := [],
          emitted := [(storeCollaborators.DEFAULT_CHANNEL_NOT_FOUND,
            Val.obj [("id", "mobile.default_channel.error"),
              ("defaultMessage", "A default channel for this team was not found.")])],
          result := { error := some (Val.obj [("id", "mobile.default_channel.error"),
              ("defaultMessage", "A default channel for this team was not found.")]) } } ∧
      (selectRedirectChannelForTeam storeCollaborators "T" storeAB).events = [] :=
  selectRedirectChannelForTeam_not_found storeCollaborators storeAB "T" (by decide)

/-! ## Deep links -/

theorem errorId_deepLink_no_team {State : Type} (c : Collaborators State) (state : State)
    (channelName teamName : String) (hteam : c.getTeamByName state teamName = none) :
    errorId (selectChannelFromDeepLinkMatch c channelName teamName state).result =
      some "mobile.server_link.unreachable_team.error" := by
  simp [selectChannelFromDeepLinkMatch, hteam, t, errorId, List.lookup]

theorem errorId_deepLink_cross_team {State : Type} (c : Collaborators State) (state : State)
    (channelName teamName : String) (team : Team) (channel : Channel)
    (hteam : c.getTeamByName state teamName = some team)
    (hchannel : c.getChannelByName state channelName = some channel)
    (hcross : channel.team_id ≠ some team.id) :
    errorId (selectChannelFromDeepLinkMatch c channelName teamName state).result =
      some "mobile.server_link.error.text" := by
  simp [selectChannelFromDeepLinkMatch, hteam, hchannel, hcross, t, errorId, List.lookup]

/-- C11: when the deep link's team and channel are both found and `channel.team_id` differs
from `team.id`, `selectChannelFromDeepLinkMatch` returns the cross-team-link failure, whose
error has id `mobile.server_link.error.text`, and makes no `dispatch` call, whatever the
current channel, the current team and the rest of the state are. -/
theorem selectChannelFromDeepLinkMatch_cross_team {State : Type} (c : Collaborators State)
    (state : State) (channelName teamName : String) (team : Team) (channel : Channel)
    (hteam : c.getTeamByName state teamName = some team)
    (hchannel : c.getChannelByName state channelName = some channel)
    (hcross : channel.team_id ≠ some team.id) :
    selectChannelFromDeepLinkMatch c channelName teamName state =
        { dispatched := [], emitted := [],
          result := { error := some (Val.obj [("id", "mobile.server_link.error.text"),
            ("defaultMessage", "The link could not be found on this server.")]) } } ∧
      errorId (selectChannelFromDeepLinkMatch c channelName teamName state).result =
        some "mobile.server_link.error.text" := by
  simp [selectChannelFromDeepLinkMatch, hteam, hchannel, hcross, t, errorId, List.lookup]

/-- Witness for C11: the channel `town-square` of team `T2` reached through the name of
team `T`. -/
theorem selectChannelFromDeepLinkMatch_cross_team_witness :
    selectChannelFromDeepLinkMatch storeCollaborators "town-square" "current-team-name"
        storeCross =
        { dispatched := [], emitted := [],
          result := { error := some (Val.obj [("id", "mobile.server_link.error.text"),
            ("defaultMessage", "The link could not be found on this server.")]) } } ∧
      errorId (selectChannelFromDeepLinkMatch storeCollaborators "town-square"
        "current-team-name" storeCross).result = some "mobile.server_link.error.text" :=
  selectChannelFromDeepLinkMatch_cross_team storeCollaborators storeCross "town-square"
    "current-team-name" { id := "T", name := "current-team-name" }
    { id := "B", display_name := "town-square", team_id := some "T2" }
    (by decide) (by decide) (by decide)

/-- C12: when `getTeamByName` finds no team for the deep link's team name,
`selectChannelFromDeepLinkMatch` returns the failure whose error has id
`mobile.server_link.unreachable_team.error` and makes no `dispatch` call: no `selectTeam`,
no `handleSelectChannel`, nothing else. -/
theorem selectChannelFromDeepLinkMatch_no_team {State : Type} (c : Collaborators State)
    (state : State) (channelName teamName : String)
    (hteam : c.getTeamByName state teamName = none) :
    selectChannelFromDeepLinkMatch c channelName teamName state =
        { dispatched := [], emitted := [],
          result := { error := some (Val.obj
            [("id", "mobile.server_link.unreachable_team.error"),
              ("defaultMessage",
                "This link belongs to a deleted team or to a team to which you do not have access.")]) } } ∧
      errorId (selectChannelFromDeepLinkMatch c channelName teamName state).result =
        some "mobile.server_link.unreachable_team.error" := by
  simp [selectChannelFromDeepLinkMatch, hteam, t, errorId, List.lookup]

/-- Witness for C12: the store of the tests knows no team named `other-team`. -/
theorem selectChannelFromDeepLinkMatch_no_team_witness :
    selectChannelFromDeepLinkMatch storeCollaborators "Test Channel" "other-team" storeAB =
        { dispatched := [], emitted := [],
          result := { error := some (Val.obj
            [("id", "mobile.server_link.unreachable_team.error"),
              ("defaultMessage",
                "This link belongs to a deleted team or to a team to which you do not have access.")]) } } ∧
      errorId (selectChannelFromDeepLinkMatch storeCollaborators "Test Channel" "other-team"
        storeAB).result = some "mobile.server_link.unreachable_team.error" :=
  selectChannelFromDeepLinkMatch_no_team storeCollaborators storeAB "Test Channel"
    "other-team" (by decide)

/-- C13: when the deep link's team is found but `getChannelByName` finds no channel,
`selectChannelFromDeepLinkMatch` returns the failure whose error has id
`mobile.server_link.unreachable_channel.error` and makes no `dispatch` call; that id is not
the id of any team-not-found failure nor of any cross-team-link failure of the function. -/
theorem selectChannelFromDeepLinkMatch_no_channel {State : Type} (c : Collaborators State)
    (state : State) (channelName teamName : String) (team : Team)
    (hteam : c.getTeamByName state teamName = some team)
    (hchannel : c.getChannelByName state channelName = none) :
    selectChannelFromDeepLinkMatch c channelName teamName state =
        { dispatched := [], emitted := [],
          result := { error := some (Val.obj
            [("id", "mobile.server_link.unreachable_channel.error"),
              ("defaultMessage",
                "This link belongs to a deleted channel or to a channel to which you do not have access.")]) } } ∧
      errorId (selectChannelFromDeepLinkMatch c channelName teamName state).result =
        some "mobile.server_link.unreachable_channel.error" ∧
      (∀ (state1 : State) (channelName1 teamName1 : String),
        c.getTeamByName state1 teamName1 = none →
        errorId (selectChannelFromDeepLinkMatch c channelName1 teamName1 state1).result ≠
          errorId (selectChannelFromDeepLinkMatch c channelName teamName state).result) ∧
      (∀ (state1 : State) (channelName1 teamName1 : String) (team1 : Team)
        (channel1 : Channel),
        c.getTeamByName state1 teamName1 = some team1 →
        c.getChannelByName state1 channelName1 = some channel1 →
        channel1.team_id ≠ some team1.id →
        errorId (selectChannelFromDeepLinkMatch c channelName1 teamName1 state1).result ≠
          errorId (selectChannelFromDeepLinkMatch c channelName teamName state).result) := by
  have h : errorId (selectChannelFromDeepLinkMatch c channelName teamName state).result =
      some "mobile.server_link.unreachable_channel.error" := by
    simp [selectChannelFromDeepLinkMatch, hteam, hchannel, t, errorId, List.lookup]
  refine ⟨?_, h, ?_, ?_⟩
  · simp [selectChannelFromDeepLinkMatch, hteam, hchannel, t]
  · intro state1 channelName1 teamName1 h1
    rw [h, errorId_deepLink_no_team c state1 channelName1 teamName1 h1]
    decide
  · intro state1 channelName1 teamName1 team1 channel1 h1 h2 h3
    rw [h, errorId_deepLink_cross_team c state1 channelName1 teamName1 team1 channel1 h1 h2 h3]
    decide

/-- Witness for C13: the store of the tests knows the team `current-team-name` and no
channel named `other-channel`. -/
theorem selectChannelFromDeepLinkMatch_no_channel_witness :
    errorId (selectChannelFromDeepLinkMatch storeCollaborators "other-channel"
        "current-team-name" storeAB).result =
      some "mobile.server_link.unreachable_channel.error" ∧
    (selectChannelFromDeepLinkMatch storeCollaborators "other-channel" "current-team-name"
        storeAB).dispatched = [] :=
  have h := selectChannelFromDeepLinkMatch_no_channel storeCollaborators storeAB
    "other-channel" "current-team-name" { id := "T", name := "current-team-name" }
    (by decide) (by decide)
  ⟨h.2.1, by rw [h.1]⟩

/-! ## View history -/

/-- C14: `selectLastViewedChannelForTeam` and `selectPenultimateViewedChannelForTeam` make
exactly one `dispatch` call: `handleSelectChannel(candidate.id)` when the view-history
selector finds a candidate and `canSelectChannel(state, candidate)` holds, and
`selectRedirectChannelForTeam(teamId)` when `canSelectChannel(state, candidate)` does not
hold; both return `{data: true}`.  These cases cover every state as soon as
`canSelectChannel` rejects a missing candidate, and then the `dispatch` calls are exactly
one in every state. -/
theorem selectViewedChannelForTeam_dispatches_one {State : Type} (c : Collaborators State)
    (state : State) (teamId : String) :
    (∀ candidate, c.getLastViewedChannelForTeam state teamId = some candidate →
        c.canSelectChannel state (some candidate) = true →
        selectLastViewedChannelForTeam c teamId state =
          .ok { dispatched := [Dispatched.handleSelectChannel candidate.id], emitted := [],
                result := { data := some (.bool true) } }) ∧
      (c.canSelectChannel state (c.getLastViewedChannelForTeam state teamId) = false →
        selectLastViewedChannelForTeam c teamId state =
          .ok { dispatched := [Dispatched.selectRedirectChannelForTeam teamId], emitted := [],
                result := { data := some (.bool true) } }) ∧
      (∀ candidate, c.getPenultimateViewedChannelForTeam state teamId = some candidate →
        c.canSelectChannel state (some candidate) = true →
        selectPenultimateViewedChannelForTeam c teamId state =
          .ok { dispatched := [Dispatched.handleSelectChannel candidate.id], emitted := [],
                result := { data := some (.bool true) } }) ∧
      (c.canSelectChannel state (c.getPenultimateViewedChannelForTeam state teamId) = false →
        selectPenultimateViewedChannelForTeam c teamId state =
          .ok { dispatched := [Dispatched.selectRedirectChannelForTeam teamId], emitted := [],
                result := { data := some (.bool true) } }) ∧
      (c.canSelectChannel state none = false →
        (∃ run d, selectLastViewedChannelForTeam c teamId state = .ok run ∧
          run.dispatched = [d]) ∧
        (∃ run d, selectPenultimateViewedChannelForTeam c teamId state = .ok run ∧
          run.dispatched = [d])) := by
  refine ⟨?_, ?_, ?_, ?_, ?_⟩
  · intro candidate h1 h2
    simp [selectLastViewedChannelForTeam, h1, h2]
  · intro h
    simp [selectLastViewedChannelForTeam, h]
  · intro candidate h1 h2
    simp [selectPenultimateViewedChannelForTeam, h1, h2]
  · intro h
    simp [selectPenultimateViewedChannelForTeam, h]
  · intro hmissing
    constructor
    · unfold selectLastViewedChannelForTeam
      cases hch : c.getLastViewedChannelForTeam state teamId with
      | none => simp [hmissing]
      | some channel =>
        cases hsel : c.canSelectChannel state (some channel) <;> simp [hsel]
    · unfold selectPenultimateViewedChannelForTeam
      cases hch : c.getPenultimateViewedChannelForTeam state teamId with
      | none => simp [hmissing]
      | some channel =>
        cases hsel : c.canSelectChannel state (some channel) <;> simp [hsel]

/-- Witness for C14: with a view history whose last channel is `A`, `handleSelectChannel(A)`
is the one dispatch; with an empty view history it is `selectRedirectChannelForTeam(T)`. -/
theorem selectViewedChannelForTeam_dispatches_one_witness :
    selectLastViewedChannelForTeam storeCollaboratorsViewed "T" storeAB =
        .ok { dispatched := [Dispatched.handleSelectChannel "A"], emitted := [],
              result := { data := some (.bool true) } } ∧
      selectPenultimateViewedChannelForTeam storeCollaborators "T" storeAB =
        .ok { dispatched := [Dispatched.selectRedirectChannelForTeam "T"], emitted := [],
              result := { data := some (.bool true) } } :=
  ⟨(selectViewedChannelForTeam_dispatches_one storeCollaboratorsViewed storeAB "T").1
      { id := "A", display_name := "Test Channel" } (by decide) (by decide),
    (selectViewedChannelForTeam_dispatches_one storeCollaborators storeAB "T").2.2.2.1
      (by decide)⟩

/-- C15, as stated, fails: in the store of the tests the view history is empty, no candidate
is selectable and team `T` has no redirect channel, yet both operations return the success
`{data: true}`, a result without any error. -/
theorem selectViewedChannelForTeam_returns_success :
    storeCollaborators.canSelectChannel storeAB
        (storeCollaborators.getLastViewedChannelForTeam storeAB "T") = false ∧
      storeCollaborators.canSelectChannel storeAB
        (storeCollaborators.getPenultimateViewedChannelForTeam storeAB "T") = false ∧
      storeCollaborators.getRedirectChannelForTeam storeAB "T" = none ∧
      (selectLastViewedChannelForTeam storeCollaborators "T" storeAB).map (fun r => r.result) =
        .ok { data := some (.bool true), error := none } ∧
      (selectPenultimateViewedChannelForTeam storeCollaborators "T" storeAB).map
        (fun r => r.result) = .ok { data := some (.bool true), error := none } :=
  ⟨by decide, by decide, by decide, rfl, rfl⟩

/-- C15, amended: when the candidate channel is not selectable and the team has no redirect
channel, the own result of `selectLastViewedChannelForTeam` and of
`selectPenultimateViewedChannelForTeam` is the success `{data: true}`; the resolution
failure carrying `mobile.default_channel.error` is the result of the
`selectRedirectChannelForTeam(teamId)` thunk that they dispatch, which also publishes
`DEFAULT_CHANNEL_NOT_FOUND`, and it is not handed on to the caller. -/
theorem selectViewedChannelForTeam_failure_stays_inside {State : Type}
    (c : Collaborators State) (state : State) (teamId : String)
    (hredirect : c.getRedirectChannelForTeam state teamId = none) :
    (c.canSelectChannel state (c.getLastViewedChannelForTeam state teamId) = false →
        selectLastViewedChannelForTeam c teamId state =
          .ok { dispatched := [Dispatched.selectRedirectChannelForTeam teamId], emitted := [],
                result := { data := some (.bool true), error := none } }) ∧
      (c.canSelectChannel state (c.getPenultimateViewedChannelForTeam state teamId) = false →
        selectPenultimateViewedChannelForTeam c teamId state =
          .ok { dispatched := [Dispatched.selectRedirectChannelForTeam teamId], emitted := [],
                result := { data := some (.bool true), error := none } }) ∧
      errorId (selectRedirectChannelForTeam c teamId state).result =
        some "mobile.default_channel.error" ∧
      ((selectRedirectChannelForTeam c teamId state).emitted.map fun e => e.1) =
        [c.DEFAULT_CHANNEL_NOT_FOUND] := by
  refine ⟨?_, ?_, ?_, ?_⟩
  · intro h
    simp [selectLastViewedChannelForTeam, h]
  · intro h
    simp [selectPenultimateViewedChannelForTeam, h]
  · simp [selectRedirectChannelForTeam, hredirect, t, errorId, List.lookup]
  · simp [selectRedirectChannelForTeam, hredirect]

/-- Witness for C15 as amended: the store of the tests, team `T`, empty view history. -/
theorem selectViewedChannelForTeam_failure_stays_inside_witness :
    selectLastViewedChannelForTeam storeCollaborators "T" storeAB =
        .ok { dispatched := [Dispatched.selectRedirectChannelForTeam "T"], emitted := [],
              result := { data := some (.bool true), error := none } } ∧
      selectPenultimateViewedChannelForTeam storeCollaborators "T" storeAB =
        .ok { dispatched := [Dispatched.selectRedirectChannelForTeam "T"], emitted := [],
              result := { data := some (.bool true), error := none } } ∧
      errorId (selectRedirectChannelForTeam storeCollaborators "T" storeAB).result =
        some "mobile.default_channel.error" :=
  have h := selectViewedChannelForTeam_failure_stays_inside storeCollaborators storeAB "T"
    (by decide)
  ⟨h.1 (by decide), h.2.1 (by decide), h.2.2.1⟩

/-! ## Shape of the results -/

/-- C16: every result returned by `handleSelectChannel`, `selectRedirectChannelForTeam`,
`selectLastViewedChannelForTeam`, `selectPenultimateViewedChannelForTeam` and
`selectChannelFromDeepLinkMatch` has exactly one of its two fields: `data` and no `error`,
or `error` and no `data`.  The first, second and last always return; each of the two
view-history thunks returns unless its selector finds no candidate while `canSelectChannel`
accepts the missing candidate, the one case in which it returns no result at all. -/
theorem results_have_one_variant {State : Type} (c : Collaborators State) (state : State)
    (channelId teamId channelName teamName : String) :
    (handleSelectChannel c channelId state).result.oneVariant = true ∧
      (selectRedirectChannelForTeam c teamId state).result.oneVariant = true ∧
      (selectChannelFromDeepLinkMatch c channelName teamName state).result.oneVariant = true ∧
      ((∃ run, selectLastViewedChannelForTeam c teamId state = .ok run ∧
          run.result.oneVariant = true) ∨
        (c.getLastViewedChannelForTeam state teamId = none ∧
          c.canSelectChannel state none = true ∧
          selectLastViewedChannelForTeam c teamId state = .error typeError)) ∧
      ((∃ run, selectPenultimateViewedChannelForTeam c teamId state = .ok run ∧
          run.result.oneVariant = true) ∨
        (c.getPenultimateViewedChannelForTeam state teamId = none ∧
          c.canSelectChannel state none = true ∧
          selectPenultimateViewedChannelForTeam c teamId state = .error typeError)) := by
  refine ⟨?_, ?_, ?_, ?_, ?_⟩
  · unfold handleSelectChannel
    simp only []
    split
    · rfl
    · split
      · split <;> rfl
      · rfl
  · unfold selectRedirectChannelForTeam
    split <;> rfl
  · unfold selectChannelFromDeepLinkMatch
    split
    · rfl
    · split
      · rfl
      · simp only []
        split
        · rfl
        · split <;> rfl
  · unfold selectLastViewedChannelForTeam
    simp only []
    cases hsel : c.canSelectChannel state (c.getLastViewedChannelForTeam state teamId) with
    | false => exact Or.inl ⟨_, rfl, rfl⟩
    | true =>
      cases hch : c.getLastViewedChannelForTeam state teamId with
      | none =>
        rw [hch] at hsel
        exact Or.inr ⟨rfl, hsel, rfl⟩
      | some channel => exact Or.inl ⟨_, rfl, rfl⟩
  · unfold selectPenultimateViewedChannelForTeam
    simp only []
    cases hsel : c.canSelectChannel state (c.getPenultimateViewedChannelForTeam state teamId) with
    | false => exact Or.inl ⟨_, rfl, rfl⟩
    | true =>
      cases hch : c.getPenultimateViewedChannelForTeam state teamId with
      | none =>
        rw [hch] at hsel
        exact Or.inr ⟨rfl, hsel, rfl⟩
      | some channel => exact Or.inl ⟨_, rfl, rfl⟩

/-! ## Prefetch of posts -/

/-- The `dispatch` calls of `loadPostsIfNecessaryWithRetry`: the retried fetch, then, when
the fetch has settled with a value, one batch tagged `BATCH_LOAD_POSTS_IN_CHANNEL`. -/
theorem loadPosts_dispatched_shape {State σ : Type} (p : PostCollaborators State σ)
    (channelId : String) (time : Int) (state : State) (w : σ) :
    ∃ postAction, (loadPostsIfNecessaryWithRetry p channelId time state w).dispatched =
        [Dispatched.dispatchWithRetry postAction] ∨
      ∃ actions, (loadPostsIfNecessaryWithRetry p channelId time state w).dispatched =
        [Dispatched.dispatchWithRetry postAction,
          Dispatched.batchActions actions "BATCH_LOAD_POSTS_IN_CHANNEL"] := by
  unfold loadPostsIfNecessaryWithRetry
  simp only []
  split
  · exact ⟨_, Or.inl rfl⟩
  · exact ⟨_, Or.inr ⟨_, rfl⟩⟩

theorem loadPosts_no_switch_batch {State σ : Type} (p : PostCollaborators State σ)
    (channelId : String) (time : Int) (state : State) (w : σ) :
    (List.filterMap
      (fun d =>
        match d with
        | Dispatched.batchActions actions tag1 =>
          if tag1 = "BATCH_SWITCH_CHANNEL" then some actions else none
        | _ => none)
      (loadPostsIfNecessaryWithRetry p channelId time state w).dispatched) = [] := by
  obtain ⟨postAction, h | ⟨actions, h⟩⟩ := loadPosts_dispatched_shape p channelId time state w
  · rw [h]
    rfl
  · rw [h]
    simp [List.filterMap]

/-- C18: when the channel has no loaded post ids, or fewer than
`POST_VISIBILITY_CHUNK_SIZE` of them, `loadPostsIfNecessaryWithRetry(channelId)` hands
`getPosts(channelId)` to `dispatchWithRetry`, the fetch it performs is that thunk's, and no
`getPostsSince` is dispatched; when at least `POST_VISIBILITY_CHUNK_SIZE` post ids are
loaded it hands over
`getPostsSince(channelId, getChannelSinceValue(state, channelId, postIds))` and performs
that fetch. -/
theorem loadPosts_fetch_choice {State σ : Type} (p : PostCollaborators State σ)
    (channelId : String) (time : Int) (state : State) (w : σ) :
    ((p.getPostIdsInChannel state channelId = none ∨
        ∃ postIds, p.getPostIdsInChannel state channelId = some postIds ∧
          (postIds.length : Int) < p.POST_VISIBILITY_CHUNK_SIZE) →
      (loadPostsIfNecessaryWithRetry p channelId time state w).dispatched.head? =
          some (Dispatched.dispatchWithRetry (PostAction.getPosts channelId)) ∧
        (loadPostsIfNecessaryWithRetry p channelId time state w).world =
          (dispatchWithRetry (p.perform (PostAction.getPosts channelId)) none w).2 ∧
        ∀ id since, Dispatched.dispatchWithRetry (PostAction.getPostsSince id since) ∉
          (loadPostsIfNecessaryWithRetry p channelId time state w).dispatched) ∧
    (∀ postIds, p.getPostIdsInChannel state channelId = some postIds →
      p.POST_VISIBILITY_CHUNK_SIZE ≤ (postIds.length : Int) →
      (loadPostsIfNecessaryWithRetry p channelId time state w).dispatched.head? =
          some (Dispatched.dispatchWithRetry
            (PostAction.getPostsSince channelId
              (p.getChannelSinceValue state channelId postIds))) ∧
        (loadPostsIfNecessaryWithRetry p channelId time state w).world =
          (dispatchWithRetry
            (p.perform (PostAction.getPostsSince channelId
              (p.getChannelSinceValue state channelId postIds))) none w).2) := by
  constructor
  · intro h
    have hact : (match p.getPostIdsInChannel state channelId with
        | none => PostAction.getPosts channelId
        | some postIds =>
          if (postIds.length : Int) < p.POST_VISIBILITY_CHUNK_SIZE then
            PostAction.getPosts channelId
          else
            PostAction.getPostsSince channelId
              (p.getChannelSinceValue state channelId postIds)) =
        PostAction.getPosts channelId := by
      rcases h with h | ⟨postIds, h, hlt⟩
      · rw [h]
      · rw [h]
        simp [hlt]
    unfold loadPostsIfNecessaryWithRetry
    simp only [hact, dispatch]
    split <;> simp_all
  · intro postIds h hge
    have hlt : ¬ (postIds.length : Int) < p.POST_VISIBILITY_CHUNK_SIZE := not_lt.mpr hge
    unfold loadPostsIfNecessaryWithRetry
    simp only [h, hlt, if_false, dispatch]
    split <;> simp_all

/-- Witness for C18: with no post ids loaded for `B` the fetch is `getPosts(B)`; with 15 of
them loaded, the chunk size, it is `getPostsSince(B, 15)`. -/
theorem loadPosts_fetch_choice_witness :
    (loadPostsIfNecessaryWithRetry
        (postCollaborators [] (.returned { data := some (.postList (some [])) }))
        "B" 0 storeAB 0).dispatched.head? =
        some (Dispatched.dispatchWithRetry (PostAction.getPosts "B")) ∧
      (loadPostsIfNecessaryWithRetry
        (postCollaborators [("B", List.replicate 15 "p")]
          (.returned { data := some (.postList (some [])) }))
        "B" 0 storeAB 0).dispatched.head? =
        some (Dispatched.dispatchWithRetry (PostAction.getPostsSince "B" 15)) :=
  ⟨((loadPosts_fetch_choice
      (postCollaborators [] (.returned { data := some (.postList (some [])) }))
      "B" 0 storeAB 0).1 (Or.inl rfl)).1,
    ((loadPosts_fetch_choice
      (postCollaborators [("B", List.replicate 15 "p")]
        (.returned { data := some (.postList (some [])) }))
      "B" 0 storeAB 0).2 (List.replicate 15 "p") rfl (by decide)).1⟩

/-! ## The select-channel event -/

/-- C19: for a channel id that is not the active channel and that the state has no channel
for, `handleSelectChannel` dispatches no `BATCH_SWITCH_CHANNEL` batch and emits no
select-channel event; its one dispatch is the prefetch of posts and it returns
`{data: true}`. -/
theorem handleSelectChannel_unknown_channel {State : Type} (c : Collaborators State)
    (state : State) (channelId : String) (hne : channelId ≠ c.getCurrentChannelId state)
    (hnone : c.getChannel state channelId = none) :
    (handleSelectChannel c channelId state).batches "BATCH_SWITCH_CHANNEL" = [] ∧
      (∀ data extra, Event.selectChannel data extra ∉
        (handleSelectChannel c channelId state).events) ∧
      handleSelectChannel c channelId state =
        { dispatched := [Dispatched.loadPostsIfNecessaryWithRetry channelId], emitted := [],
          result := { data := some (.bool true) } } := by
  have h : handleSelectChannel c channelId state =
      { dispatched := [Dispatched.loadPostsIfNecessaryWithRetry channelId], emitted := [],
        result := { data := some (.bool true) } } := by
    simp [handleSelectChannel, hne, hnone]
  rw [h]
  simp [Run.batches, Run.events]

/-- Witness for C19: the store of the tests, active channel `A`, and the id `not-A`, which
it has no channel for. -/
theorem handleSelectChannel_unknown_channel_witness :
    (handleSelectChannel storeCollaborators "not-A" storeAB).batches "BATCH_SWITCH_CHANNEL"
        = [] ∧
      (∀ data extra, Event.selectChannel data extra ∉
        (handleSelectChannel storeCollaborators "not-A" storeAB).events) ∧
      handleSelectChannel storeCollaborators "not-A" storeAB =
        { dispatched := [Dispatched.loadPostsIfNecessaryWithRetry "not-A"], emitted := [],
          result := { data := some (.bool true) } } :=
  handleSelectChannel_unknown_channel storeCollaborators storeAB "not-A" (by decide)
    (by decide)

/-- C20: the select-channel event that `handleSelectChannel(B)` emits, the last event of its
batch, carries data `B` and `extra = {channel, member, teamId}` where `channel` is the
channel stored for `B`, `member` is my channel member stored for `B`, and `teamId` is the
channel's `team_id` when that is non-empty and the current team id otherwise, as for a
channel without `team_id`. -/
theorem handleSelectChannel_select_event {State : Type} (c : Collaborators State)
    (state : State) (B : String) (channel : Channel)
    (hne : B ≠ c.getCurrentChannelId state) (hch : c.getChannel state B = some channel) :
    ∃ extra : SelectChannelExtra,
      (handleSelectChannel c B state).events.getLast? = some (Event.selectChannel B extra) ∧
      extra.channel = channel ∧
      extra.member = c.getMyChannelMember state B ∧
      (∀ id, channel.team_id = some id → id ≠ "" → extra.teamId = id) ∧
      (channel.team_id = none ∨ channel.team_id = some "" →
        extra.teamId = c.getCurrentTeamId state) := by
  have h : ¬ c.getCurrentChannelId state = B := fun e => hne e.symm
  refine ⟨SelectChannelExtra.mk channel (c.getMyChannelMember state B)
    (teamIdOr channel.team_id (c.getCurrentTeamId state)), ?_, rfl, rfl, ?_, ?_⟩
  · simp [handleSelectChannel, Run.events, hne, hch, h]
  · intro id hid hnonempty
    simp [teamIdOr, hid, hnonempty]
  · intro hempty
    rcases hempty with hid | hid <;> simp [teamIdOr, hid]

/-- Witness for C20: in the store of the tests the channel `B` has no `team_id`, so the
event for `B` carries the current team id `T`. -/
theorem handleSelectChannel_select_event_witness :
    ∃ extra : SelectChannelExtra,
      (handleSelectChannel storeCollaborators "B" storeAB).events.getLast? =
        some (Event.selectChannel "B" extra) ∧
      extra.channel = { id := "B", display_name := "Test Channel" } ∧
      extra.member = some { channel_id := "B", user_id := "U" } ∧
      extra.teamId = "T" :=
  have ⟨extra, h1, h2, h3, _, h5⟩ := handleSelectChannel_select_event storeCollaborators
    storeAB "B" { id := "B", display_name := "Test Channel" } (by decide) (by decide)
  ⟨extra, h1, h2, h3, h5 (Or.inl rfl)⟩

/-! ## Order and number of the attempts -/

/-- C21: every attempt of `dispatchWithRetry` dispatches the action it was given, and the
attempts follow one another: the dispatches of a run are the first `j + 1` consecutive
dispatches of that action for some `j`, attempt `i + 2` starting in the world that attempt
`i + 1` left, and every attempt before the last has completed with a truthy error. -/
theorem dispatchWithRetry_sequential {σ : Type} (a : ActionFunc σ) (maxTries : Option Int)
    (w : σ) :
    ∃ j, (dispatchWithRetry (traced a) maxTries (w, [])).2.2 = outcomes a w (j + 1) ∧
      (dispatchWithRetry (traced a) maxTries (w, [])).2.1 = worldAfter a w (j + 1) ∧
      (∀ i, i ≤ j → (outcomes a w (j + 1)).get? i = some (a (worldAfter a w i)).1) ∧
      (∀ i, i < j → (outcomeAt a w i).failed = true) ∧
      (dispatchWithRetry (traced a) maxTries (w, [])).1 =
        .returned (capture (outcomeAt a w j)) := by
  obtain ⟨j, hj, hpre, _⟩ := doDispatchWithRetry_trace a (maxTries.getD MAX_TRIES) 1 w []
  have h : dispatchWithRetry (traced a) maxTries (w, []) =
      (.returned (capture (outcomeAt a w j)),
        (worldAfter a w (j + 1), [] ++ outcomes a w (j + 1))) := hj
  refine ⟨j, by rw [h]; simp, by rw [h], ?_, fun i hi => (hpre i hi).1, by rw [h]⟩
  have hget : ∀ (n : Nat) (u : σ) (i : Nat), i < n →
      (outcomes a u n).get? i = some (a (worldAfter a u i)).1 := by
    intro n
    induction n with
    | zero => intro u i hi; omega
    | succ n ih =>
      intro u i hi
      cases i with
      | zero => simp [outcomes, worldAfter]
      | succ i =>
        have := ih (a u).2 i (by omega)
        simpa [outcomes, worldAfter] using this
  intro i hi
  exact hget (j + 1) w i (by omega)

/-- C27: for every integer `maxTries`, zero and negative ones included, and every action,
the loop ends with a returned result; the action is dispatched at least once and at most
`max(1, maxTries)` times; for `maxTries ≤ 0` the run is the run for `maxTries = 1`, with
exactly one dispatch. -/
theorem dispatchWithRetry_bounded {σ : Type} (a : ActionFunc σ) (maxTries : Int) (w : σ) :
    (∃ r, (dispatchWithRetry (traced a) (some maxTries) (w, [])).1 = .returned r) ∧
      1 ≤ (dispatchWithRetry (traced a) (some maxTries) (w, [])).2.2.length ∧
      ((dispatchWithRetry (traced a) (some maxTries) (w, [])).2.2.length : Int) ≤
        max 1 maxTries ∧
      (maxTries ≤ 0 →
        dispatchWithRetry (traced a) (some maxTries) (w, []) =
            dispatchWithRetry (traced a) (some 1) (w, []) ∧
          (dispatchWithRetry (traced a) (some maxTries) (w, [])).2.2.length = 1) := by
  obtain ⟨j, hj, hpre, _⟩ := doDispatchWithRetry_trace a maxTries 1 w []
  have h : dispatchWithRetry (traced a) (some maxTries) (w, []) =
      (.returned (capture (outcomeAt a w j)),
        (worldAfter a w (j + 1), [] ++ outcomes a w (j + 1))) := hj
  have hlen : (dispatchWithRetry (traced a) (some maxTries) (w, [])).2.2.length = j + 1 := by
    rw [h]
    simp [outcomes_length]
  have hbound : j = 0 ∨ (j : Int) < maxTries := by
    cases j with
    | zero => exact Or.inl rfl
    | succ k =>
      right
      have := (hpre k (Nat.lt_succ_self k)).2
      push_cast
      omega
  refine ⟨⟨_, by rw [h]⟩, by rw [hlen]; omega, ?_, ?_⟩
  · rw [hlen]
    rcases hbound with h0 | h1
    · subst h0
      simp
    · have : ((j + 1 : Nat) : Int) ≤ maxTries := by push_cast; omega
      exact le_trans this (le_max_right 1 maxTries)
  · intro hneg
    have h0 : j = 0 := by
      rcases hbound with h0 | h1
      · exact h0
      · omega
    subst h0
    have hone : dispatchWithRetry (traced a) (some 1) (w, []) =
        (.returned (capture (outcomeAt a w 0)),
          (worldAfter a w (0 + 1), [] ++ outcomes a w (0 + 1))) :=
      doDispatchWithRetry_stops a 1 0 1 w []
        (fun i hi => absurd hi (Nat.not_lt_zero i)) (Or.inr (by simp))
    exact ⟨by rw [h, hone], hlen⟩

/-- Witness for C27: with `maxTries = -2` an action that throws `'error'` at every dispatch
is dispatched once. -/
theorem dispatchWithRetry_bounded_witness :
    (dispatchWithRetry (traced (always (.thrown (.str "error")))) (some (-2)) ((), [])).2.2.length
      = 1 :=
  ((dispatchWithRetry_bounded (always (.thrown (.str "error"))) (-2) ()).2.2.2
    (by decide)).2

/-- C29: the loop retries on the truthiness of the attempt's error alone.  When the attempts
before attempt `j + 1` have failed within the tries and attempt `j + 1` leaves no truthy
error, the loop ends there whatever `maxTries` still allows: the action has been dispatched
`j + 1` times and the result is what that attempt left, which is `{error: e}` when it threw
a falsy `e` and the returned result itself when its `error` is falsy. -/
theorem dispatchWithRetry_falsy_error_stops {σ : Type} (a : ActionFunc σ) (maxTries : Int)
    (j : Nat) (w : σ)
    (hbefore : ∀ i, i < j → (outcomeAt a w i).failed = true ∧ (i : Int) + 1 < maxTries)
    (hfalsy : (outcomeAt a w j).failed = false) :
    dispatchWithRetry (traced a) (some maxTries) (w, []) =
        (.returned (capture (outcomeAt a w j)), (worldAfter a w (j + 1), outcomes a w (j + 1))) ∧
      (dispatchWithRetry (traced a) (some maxTries) (w, [])).2.2.length = j + 1 ∧
      (∀ e, outcomeAt a w j = .thrown e →
        e.truthy = false ∧
        (dispatchWithRetry (traced a) (some maxTries) (w, [])).1 =
          .returned { error := some e }) ∧
      (∀ r, outcomeAt a w j = .returned r →
        (field r.error).truthy = false ∧
        (dispatchWithRetry (traced a) (some maxTries) (w, [])).1 = .returned r) := by
  have h : dispatchWithRetry (traced a) (some maxTries) (w, []) =
      (.returned (capture (outcomeAt a w j)),
        (worldAfter a w (j + 1), outcomes a w (j + 1))) := by
    unfold dispatchWithRetry dispatch
    simp only [Option.getD_some]
    rw [doDispatchWithRetry_stops a maxTries j 1 w []
      (fun i hi => ⟨(hbefore i hi).1, by have := (hbefore i hi).2; omega⟩) (Or.inl hfalsy)]
    simp
  refine ⟨h, by rw [h]; exact outcomes_length a (j + 1) w, ?_, ?_⟩
  · intro e he
    rw [he] at hfalsy
    refine ⟨by simpa [Outcome.failed, capture, field] using hfalsy, ?_⟩
    rw [h, he]
    rfl
  · intro r hr
    rw [hr] at hfalsy
    refine ⟨by simpa [Outcome.failed, capture] using hfalsy, ?_⟩
    rw [h, hr]
    rfl

/-- Witness for C29: an action that throws `undefined` at its first dispatch and would
return data afterwards is dispatched once with `maxTries = 5`; the result is
`{error: undefined}`. -/
theorem dispatchWithRetry_falsy_error_stops_witness :
    dispatchWithRetry
        (traced (scripted fun i =>
          if i = 0 then .thrown .undefined else .returned { data := some (.num 1) }))
        (some 5) (0, []) =
      (.returned { error := some .undefined }, (1, [.thrown .undefined])) :=
  (dispatchWithRetry_falsy_error_stops
    (scripted fun i =>
      if i = 0 then .thrown .undefined else .returned { data := some (.num 1) })
    5 0 0 (fun i hi => absurd hi (Nat.not_lt_zero i)) rfl).1

/-! ## Results of `promisesWithRetry` -/

theorem promiseAll_fulfilled (values : List ActionResult) :
    promiseAll (values.map Settled.fulfilled) = .ok values := by
  induction values with
  | nil => rfl
  | cons v vs ih => simp [promiseAll, ih]

theorem promiseAll_first_rejected (pre : List ActionResult) (reason : Val)
    (post : List Settled) :
    promiseAll (pre.map Settled.fulfilled ++ Settled.rejected reason :: post) =
      .error reason := by
  induction pre with
  | nil => simp [promiseAll]
  | cons v vs ih =>
    rw [List.map_cons, List.cons_append, promiseAll, ih]

theorem promisesWithRetry_eq_first (promises : List Settled) (maxTries : Option Int) :
    promisesWithRetry promises maxTries = tryPromiseAll promises := by
  unfold promisesWithRetry
  exact doPromisesWithRetry_eq_first promises _ _ 1 rfl

/-- On promises that have already settled the result of `promisesWithRetry` does not depend
on `maxTries`: it is the array of the resolved values in input order when all members
resolve, and `{error: reason}` for the reason of the first rejected member otherwise. -/
theorem promisesWithRetry_independent_of_maxTries (promises : List Settled) (maxTries : Int) :
    promisesWithRetry promises (some maxTries) = promisesWithRetry promises (some 1) ∧
      (∀ values, promises = values.map Settled.fulfilled →
        promisesWithRetry promises (some maxTries) = .values values) ∧
      (∀ (pre : List ActionResult) (reason : Val) (post : List Settled),
        promises = pre.map Settled.fulfilled ++ Settled.rejected reason :: post →
        promisesWithRetry promises (some maxTries) = .failure reason) := by
  refine ⟨by rw [promisesWithRetry_eq_first, promisesWithRetry_eq_first], ?_, ?_⟩
  · intro values h
    rw [promisesWithRetry_eq_first, h, tryPromiseAll, promiseAll_fulfilled]
  · intro pre reason post h
    rw [promisesWithRetry_eq_first, h, tryPromiseAll, promiseAll_first_rejected]

/-- C30: a member that resolves to an error result `{error: e}` is not a failure of the
batch: when every member resolves, `Promise.all` is awaited once, nothing is retried, and
the value returned is the array of the resolved values, with `{error: e}` at the member's
position, not a single `{error}` failure. -/
theorem promisesWithRetry_resolved_error_kept (pre post : List ActionResult) (e : Val)
    (maxTries : Option Int) :
    promisesWithRetry
        (pre.map Settled.fulfilled ++
          Settled.fulfilled { error := some e } :: post.map Settled.fulfilled) maxTries =
        .values (pre ++ { error := some e } :: post) ∧
      (pre ++ ({ error := some e } : ActionResult) :: post).get? pre.length =
        some { error := some e } ∧
      promiseAllAwaits
        (pre.map Settled.fulfilled ++
          Settled.fulfilled { error := some e } :: post.map Settled.fulfilled)
        (maxTries.getD MAX_TRIES) 1 = 1 ∧
      promisesWithRetry
        (pre.map Settled.fulfilled ++
          Settled.fulfilled { error := some e } :: post.map Settled.fulfilled) maxTries ≠
        .failure e := by
  have hmap : pre.map Settled.fulfilled ++
      Settled.fulfilled { error := some e } :: post.map Settled.fulfilled =
      (pre ++ ({ error := some e } : ActionResult) :: post).map Settled.fulfilled := by
    simp
  have hres : promisesWithRetry
      (pre.map Settled.fulfilled ++
        Settled.fulfilled { error := some e } :: post.map Settled.fulfilled) maxTries =
      .values (pre ++ { error := some e } :: post) := by
    rw [promisesWithRetry_eq_first, hmap, tryPromiseAll, promiseAll_fulfilled]
  refine ⟨hres, ?_, ?_, by rw [hres]; exact fun h => BatchResult.noConfusion h⟩
  · rw [List.get?_eq_getElem?, List.getElem?_append_right (le_refl _)]
    simp
  · rw [promiseAllAwaits_unfold, hmap, tryPromiseAll, promiseAll_fulfilled]
    simp [BatchResult.errorField, Val.truthy]

/-! ## The batch of `loadPostsIfNecessaryWithRetry` -/

/-- The retried fetch settles with a returned value, and `loadPostsIfNecessaryWithRetry`
goes on from it: one batch after the fetch, built from the `data` of its result. -/
theorem loadPosts_after_fetch {State σ : Type} (p : PostCollaborators State σ)
    (channelId : String) (time : Int) (state : State) (w : σ) :
    (loadPostsIfNecessaryWithRetry p channelId time state w).dispatched =
        [Dispatched.dispatchWithRetry (postActionFor p channelId state),
          Dispatched.batchActions
            ((if (field (fetchResult p channelId state w).data).truthy then
                [Event.setLastGetPostsForChannel channelId time,
                  Event.setChannelRetryFailed false]
              else [Event.setChannelRetryFailed true]) ++
              [Event.setLoadMorePostsVisible
                (if (field (fetchResult p channelId state w).data).truthy then
                  match (field (fetchResult p channelId state w).data).orderLength with
                  | some count => decide ((count : Int) ≥ p.POST_VISIBILITY_CHUNK_SIZE)
                  | none => true
                else true)])
            "BATCH_LOAD_POSTS_IN_CHANNEL"] ∧
      (loadPostsIfNecessaryWithRetry p channelId time state w).outcome =
        .returned { data := some (.bool true) } := by
  obtain ⟨r, hr⟩ := doDispatchWithRetry_no_throw (p.perform (postActionFor p channelId state))
    MAX_TRIES _ 1 w rfl
  have hpair : dispatch (dispatchWithRetry (p.perform (postActionFor p channelId state)) none) w
      = (.returned r,
        (dispatch (dispatchWithRetry (p.perform (postActionFor p channelId state)) none) w).2) := by
    apply Prod.ext
    · exact hr
    · rfl
  have hres : fetchResult p channelId state w = r := by
    unfold fetchResult
    rw [hpair]
    rfl
  rw [hres]
  unfold loadPostsIfNecessaryWithRetry
  unfold postActionFor at hpair
  simp only []
  rw [hpair]
  exact ⟨rfl, rfl⟩

/-- C22: when the retried fetch of posts ends with a result that has data,
`loadPostsIfNecessaryWithRetry` dispatches, after the fetch, exactly one batch, tagged
`BATCH_LOAD_POSTS_IN_CHANNEL` and equal to `[setLastGetPostsForChannel(channelId, time),
setChannelRetryFailed(false), setLoadMorePostsVisible(v)]`, where `v` is
`data.order.length >= POST_VISIBILITY_CHUNK_SIZE` when `data.order` is present and `true`
when it is absent; it returns `{data: true}`. -/
theorem loadPosts_success_batch {State σ : Type} (p : PostCollaborators State σ)
    (channelId : String) (time : Int) (state : State) (w : σ)
    (hdata : (field (fetchResult p channelId state w).data).truthy = true) :
    ∃ v : Bool,
      (loadPostsIfNecessaryWithRetry p channelId time state w).dispatched =
        [Dispatched.dispatchWithRetry (postActionFor p channelId state),
          Dispatched.batchActions
            [Event.setLastGetPostsForChannel channelId time, Event.setChannelRetryFailed false,
              Event.setLoadMorePostsVisible v]
            "BATCH_LOAD_POSTS_IN_CHANNEL"] ∧
      (∀ order, field (fetchResult p channelId state w).data = .postList (some order) →
        v = decide ((order.length : Int) ≥ p.POST_VISIBILITY_CHUNK_SIZE)) ∧
      (field (fetchResult p channelId state w).data = .postList none → v = true) ∧
      (v = match (field (fetchResult p channelId state w).data).orderLength with
        | some count => decide ((count : Int) ≥ p.POST_VISIBILITY_CHUNK_SIZE)
        | none => true) ∧
      (loadPostsIfNecessaryWithRetry p channelId time state w).outcome =
        .returned { data := some (.bool true) } := by
  have h := loadPosts_after_fetch p channelId time state w
  simp only [hdata, if_true] at h
  refine ⟨_, by rw [h.1]; rfl, ?_, ?_, rfl, h.2⟩
  · intro order ho
    rw [ho]
    rfl
  · intro ho
    rw [ho]
    rfl

/-- C24: when the fetch of posts still fails after the retries, its final result having no
data, `loadPostsIfNecessaryWithRetry` dispatches, after the fetch, exactly one batch, tagged
`BATCH_LOAD_POSTS_IN_CHANNEL` and equal to
`[setChannelRetryFailed(true), setLoadMorePostsVisible(true)]`; no batch of the run holds a
`setLastGetPostsForChannel` event, and the thunk settles with the returned value
`{data: true}`, not with a thrown one. -/
theorem loadPosts_failure_batch {State σ : Type} (p : PostCollaborators State σ)
    (channelId : String) (time : Int) (state : State) (w : σ)
    (hnodata : (field (fetchResult p channelId state w).data).truthy = false) :
    (loadPostsIfNecessaryWithRetry p channelId time state w).dispatched =
        [Dispatched.dispatchWithRetry (postActionFor p channelId state),
          Dispatched.batchActions
            [Event.setChannelRetryFailed true, Event.setLoadMorePostsVisible true]
            "BATCH_LOAD_POSTS_IN_CHANNEL"] ∧
      (∀ actions tag,
        Dispatched.batchActions actions tag ∈
          (loadPostsIfNecessaryWithRetry p channelId time state w).dispatched →
        ∀ id tm, Event.setLastGetPostsForChannel id tm ∉ actions) ∧
      (loadPostsIfNecessaryWithRetry p channelId time state w).outcome =
        .returned { data := some (.bool true) } := by
  have h := loadPosts_after_fetch p channelId time state w
  simp only [hnodata, Bool.false_eq_true, if_false] at h
  have hd : (loadPostsIfNecessaryWithRetry p channelId time state w).dispatched =
      [Dispatched.dispatchWithRetry (postActionFor p channelId state),
        Dispatched.batchActions
          [Event.setChannelRetryFailed true, Event.setLoadMorePostsVisible true]
          "BATCH_LOAD_POSTS_IN_CHANNEL"] := by
    rw [h.1]
    rfl
  refine ⟨hd, ?_, h.2⟩
  intro actions tag hmem id tm
  rw [hd] at hmem
  simp at hmem
  rw [hmem.1]
  simp

theorem fetchResult_postCollaborators_returned (r : ActionResult)
    (hok : (field r.error).truthy = false) :
    fetchResult (postCollaborators [] (.returned r)) "B" storeAB 0 = r := by
  simp only [fetchResult, dispatchWithRetry, dispatch]
  rw [doDispatchWithRetry_unfold]
  simp [tryDispatch, dispatch, postCollaborators, hok, capture]

theorem fetchResult_postCollaborators_thrown :
    fetchResult (postCollaborators [] (.thrown (.str "error"))) "B" storeAB 0 =
      { error := some (.str "error") } := by
  simp only [fetchResult, dispatchWithRetry, dispatch]
  rw [doDispatchWithRetry_unfold, doDispatchWithRetry_unfold, doDispatchWithRetry_unfold]
  rfl

/-- Witness for C22: the first fetch returns `{data: {order: [], posts: {}}}`, as the
mocked `getPosts` of the tests does; the batch ends with `setLoadMorePostsVisible(false)`,
the chunk size being 15. -/
theorem loadPosts_success_batch_witness :
    ∃ v : Bool,
      (loadPostsIfNecessaryWithRetry
          (postCollaborators [] (.returned { data := some (.postList (some [])) }))
          "B" 7 storeAB 0).dispatched =
        [Dispatched.dispatchWithRetry (PostAction.getPosts "B"),
          Dispatched.batchActions
            [Event.setLastGetPostsForChannel "B" 7, Event.setChannelRetryFailed false,
              Event.setLoadMorePostsVisible v]
            "BATCH_LOAD_POSTS_IN_CHANNEL"] ∧
      v = false :=
  have ⟨v, h1, h2, _, _, _⟩ := loadPosts_success_batch
    (postCollaborators [] (.returned { data := some (.postList (some [])) }))
    "B" 7 storeAB 0
    (by rw [fetchResult_postCollaborators_returned { data := some (.postList (some [])) } rfl]
        rfl)
  ⟨v, h1, by
    rw [h2 [] (by
      rw [fetchResult_postCollaborators_returned { data := some (.postList (some [])) } rfl]
      rfl)]
    rfl⟩

/-- Witness for C24: the fetch throws `'error'` at each of its three attempts. -/
theorem loadPosts_failure_batch_witness :
    (loadPostsIfNecessaryWithRetry (postCollaborators [] (.thrown (.str "error")))
        "B" 7 storeAB 0).dispatched =
      [Dispatched.dispatchWithRetry (PostAction.getPosts "B"),
        Dispatched.batchActions
          [Event.setChannelRetryFailed true, Event.setLoadMorePostsVisible true]
          "BATCH_LOAD_POSTS_IN_CHANNEL"] :=
  (loadPosts_failure_batch (postCollaborators [] (.thrown (.str "error"))) "B" 7 storeAB 0
    (by rw [fetchResult_postCollaborators_thrown]; rfl)).1

/-! ## Deep links that resolve -/

/-- C23: for a deep link whose team and channel are found, with `channel.team_id` equal to
`team.id`, and whose channel is already the active channel, `selectChannelFromDeepLinkMatch`
returns `{data: true}` and makes no `dispatch` call: no `selectTeam`, no
`handleSelectChannel`. -/
theorem selectChannelFromDeepLinkMatch_active_noop {State : Type} (c : Collaborators State)
    (state : State) (channelName teamName : String) (team : Team) (channel : Channel)
    (hteam : c.getTeamByName state teamName = some team)
    (hchannel : c.getChannelByName state channelName = some channel)
    (hsame : channel.team_id = some team.id)
    (hactive : channel.id = c.getCurrentChannelId state) :
    selectChannelFromDeepLinkMatch c channelName teamName state =
      { dispatched := [], emitted := [], result := { data := some (.bool true) } } := by
  simp [selectChannelFromDeepLinkMatch, hteam, hchannel, hsame, hactive]

/-- Witness for C23: the link to `town-square` of the current team, which is the active
channel `A`. -/
theorem selectChannelFromDeepLinkMatch_active_noop_witness :
    selectChannelFromDeepLinkMatch storeCollaborators "town-square" "current-team-name"
        storeLinked =
      { dispatched := [], emitted := [], result := { data := some (.bool true) } } :=
  selectChannelFromDeepLinkMatch_active_noop storeCollaborators storeLinked "town-square"
    "current-team-name" { id := "T", name := "current-team-name" }
    { id := "A", display_name := "town-square", team_id := some "T" }
    (by decide) (by decide) (by decide) (by decide)

/-- C25: for a deep link whose team and channel are found, with `channel.team_id` equal to
`team.id`, and whose channel is not the active channel, `selectChannelFromDeepLinkMatch`
dispatches `selectTeam(team)` if and only if `team.id` differs from the current team id, then
dispatches `handleSelectChannel(channel.id)`, once and last, and returns `{data: true}`. -/
theorem selectChannelFromDeepLinkMatch_switch {State : Type} (c : Collaborators State)
    (state : State) (channelName teamName : String) (team : Team) (channel : Channel)
    (hteam : c.getTeamByName state teamName = some team)
    (hchannel : c.getChannelByName state channelName = some channel)
    (hsame : channel.team_id = some team.id)
    (hother : channel.id ≠ c.getCurrentChannelId state) :
    (team.id ≠ c.getCurrentTeamId state →
        selectChannelFromDeepLinkMatch c channelName teamName state =
          { dispatched := [Dispatched.selectTeam team,
              Dispatched.handleSelectChannel channel.id],
            emitted := [], result := { data := some (.bool true) } }) ∧
      (team.id = c.getCurrentTeamId state →
        selectChannelFromDeepLinkMatch c channelName teamName state =
          { dispatched := [Dispatched.handleSelectChannel channel.id],
            emitted := [], result := { data := some (.bool true) } }) ∧
      ((∃ tm, Dispatched.selectTeam tm ∈
          (selectChannelFromDeepLinkMatch c channelName teamName state).dispatched) ↔
        team.id ≠ c.getCurrentTeamId state) ∧
      (selectChannelFromDeepLinkMatch c channelName teamName state).dispatched.getLast? =
        some (Dispatched.handleSelectChannel channel.id) ∧
      ((selectChannelFromDeepLinkMatch c channelName teamName state).dispatched.count
        (Dispatched.handleSelectChannel channel.id)) = 1 ∧
      (selectChannelFromDeepLinkMatch c channelName teamName state).result =
        { data := some (.bool true) } := by
  by_cases hcur : team.id = c.getCurrentTeamId state
  · have h : selectChannelFromDeepLinkMatch c channelName teamName state =
        { dispatched := [Dispatched.handleSelectChannel channel.id],
          emitted := [], result := { data := some (.bool true) } } := by
      simp [selectChannelFromDeepLinkMatch, hteam, hchannel, hsame, hother, hcur]
    rw [h]
    refine ⟨fun hne => absurd hcur hne, fun _ => rfl, ?_, rfl, by simp, rfl⟩
    simp [hcur]
  · have h : selectChannelFromDeepLinkMatch c channelName teamName state =
        { dispatched := [Dispatched.selectTeam team,
            Dispatched.handleSelectChannel channel.id],
          emitted := [], result := { data := some (.bool true) } } := by
      simp [selectChannelFromDeepLinkMatch, hteam, hchannel, hsame, hother, hcur]
    rw [h]
    refine ⟨fun _ => rfl, fun he => absurd he hcur, ?_, rfl, by simp [List.count_cons], rfl⟩
    simp [hcur]

/-- Witness for C25: the link to `off-topic` of the current team dispatches
`handleSelectChannel(B)` alone; the link to `water-cooler` of the team `T2` dispatches
`selectTeam` of that team first. -/
theorem selectChannelFromDeepLinkMatch_switch_witness :
    selectChannelFromDeepLinkMatch storeCollaborators "off-topic" "current-team-name"
        storeLinked =
        { dispatched := [Dispatched.handleSelectChannel "B"],
          emitted := [], result := { data := some (.bool true) } } ∧
      selectChannelFromDeepLinkMatch storeCollaborators "water-cooler" "other-team"
        storeLinked =
        { dispatched := [Dispatched.selectTeam { id := "T2", name := "other-team" },
            Dispatched.handleSelectChannel "C"],
          emitted := [], result := { data := some (.bool true) } } :=
  ⟨(selectChannelFromDeepLinkMatch_switch storeCollaborators storeLinked "off-topic"
      "current-team-name" { id := "T", name := "current-team-name" }
      { id := "B", display_name := "off-topic", team_id := some "T" }
      (by decide) (by decide) (by decide) (by decide)).2.1 (by decide),
    (selectChannelFromDeepLinkMatch_switch storeCollaborators storeLinked "water-cooler"
      "other-team" { id := "T2", name := "other-team" }
      { id := "C", display_name := "water-cooler", team_id := some "T2" }
      (by decide) (by decide) (by decide) (by decide)).1 (by decide)⟩

/-- C26: `selectChannelFromDeepLinkMatch` checks the causes in the order team, channel,
mismatch.  When the team is not found the result is the team-not-found error and not the
channel-not-found one, also when the channel is not found either; the channel-not-found
error is returned only when the team was found and the channel was not; the cross-team-link
error is returned only when both were found. -/
theorem selectChannelFromDeepLinkMatch_order {State : Type} (c : Collaborators State)
    (state : State) (channelName teamName : String) :
    (c.getTeamByName state teamName = none →
        errorId (selectChannelFromDeepLinkMatch c channelName teamName state).result =
            some "mobile.server_link.unreachable_team.error" ∧
          errorId (selectChannelFromDeepLinkMatch c channelName teamName state).result ≠
            some "mobile.server_link.unreachable_channel.error") ∧
      (errorId (selectChannelFromDeepLinkMatch c channelName teamName state).result =
          some "mobile.server_link.unreachable_channel.error" →
        (∃ team, c.getTeamByName state teamName = some team) ∧
          c.getChannelByName state channelName = none) ∧
      (errorId (selectChannelFromDeepLinkMatch c channelName teamName state).result =
          some "mobile.server_link.error.text" →
        ∃ team channel, c.getTeamByName state teamName = some team ∧
          c.getChannelByName state channelName = some channel ∧
          channel.team_id ≠ some team.id) := by
  cases hteam : c.getTeamByName state teamName with
  | none =>
    have h := errorId_deepLink_no_team c state channelName teamName hteam
    rw [h]
    refine ⟨fun _ => ⟨rfl, by decide⟩, fun he => ?_, fun he => ?_⟩
    · exact absurd he (by decide)
    · exact absurd he (by decide)
  | some team =>
    refine ⟨fun he => absurd he (by simp), ?_, ?_⟩
    · intro he
      cases hchannel : c.getChannelByName state channelName with
      | none => exact ⟨⟨team, rfl⟩, rfl⟩
      | some channel =>
        exfalso
        by_cases hcross : channel.team_id = some team.id
        · by_cases hact : channel.id = c.getCurrentChannelId state
          · simp [selectChannelFromDeepLinkMatch, hteam, hchannel, hcross, hact, errorId] at he
          · simp [selectChannelFromDeepLinkMatch, hteam, hchannel, hcross, hact, errorId] at he
        · rw [errorId_deepLink_cross_team c state channelName teamName team channel hteam
            hchannel hcross] at he
          exact absurd he (by decide)
    · intro he
      cases hchannel : c.getChannelByName state channelName with
      | none =>
        exfalso
        simp [selectChannelFromDeepLinkMatch, hteam, hchannel, errorId, t, List.lookup] at he
      | some channel =>
        by_cases hcross : channel.team_id = some team.id
        · exfalso
          by_cases hact : channel.id = c.getCurrentChannelId state
          · simp [selectChannelFromDeepLinkMatch, hteam, hchannel, hcross, hact, errorId] at he
          · simp [selectChannelFromDeepLinkMatch, hteam, hchannel, hcross, hact, errorId] at he
        · exact ⟨team, channel, rfl, rfl, hcross⟩

/-- Witness for C26: in the store of the tests neither the team `other-team` nor the channel
`other-channel` is found, and the error is the team-not-found one. -/
theorem selectChannelFromDeepLinkMatch_order_witness :
    storeCollaborators.getChannelByName storeAB "other-channel" = none ∧
      errorId (selectChannelFromDeepLinkMatch storeCollaborators "other-channel" "other-team"
        storeAB).result = some "mobile.server_link.unreachable_team.error" ∧
      errorId (selectChannelFromDeepLinkMatch storeCollaborators "other-channel" "other-team"
        storeAB).result ≠ some "mobile.server_link.unreachable_channel.error" :=
  ⟨by decide,
    (selectChannelFromDeepLinkMatch_order storeCollaborators storeAB "other-channel"
      "other-team").1 (by decide)⟩

/-! ## The retry helper without the declared types -/

theorem doDispatchWithRetryUntyped_unfold {σ : Type} (action : UntypedActionFunc σ)
    (maxTries attempt : Int) (w : σ) :
    doDispatchWithRetryUntyped action maxTries attempt w =
      match (tryDispatchUntyped action w).1.errorField with
      | .error thrown => (.thrown thrown, (tryDispatchUntyped action w).2)
      | .ok error =>
        if !error.truthy || attempt >= maxTries then
          (.resolved (tryDispatchUntyped action w).1, (tryDispatchUntyped action w).2)
        else
          doDispatchWithRetryUntyped action maxTries (attempt + 1)
            (tryDispatchUntyped action w).2 := by
  rw [doDispatchWithRetryUntyped]

theorem tryDispatchUntyped_untyped {σ : Type} (a : ActionFunc σ) (w : σ) :
    tryDispatchUntyped (untyped a) w =
      (.object (tryDispatch a w).1, (tryDispatch a w).2) := by
  unfold tryDispatchUntyped untyped tryDispatch dispatch
  rcases h : a w with ⟨o, w1⟩
  cases o <;> simp [Outcome.untyped]

/-- On an action of the declared type the function without the declared types does what
`doDispatchWithRetry` does. -/
theorem doDispatchWithRetryUntyped_untyped {σ : Type} (a : ActionFunc σ) (maxTries : Int) :
    ∀ (d : Nat) (attempt : Int) (w : σ), (maxTries - attempt).toNat = d →
      doDispatchWithRetryUntyped (untyped a) maxTries attempt w =
        ((doDispatchWithRetry a maxTries attempt w).1.untyped,
          (doDispatchWithRetry a maxTries attempt w).2) := by
  intro d
  induction d with
  | zero =>
    intro attempt w hd
    have h : attempt ≥ maxTries := by omega
    rw [doDispatchWithRetryUntyped_unfold, doDispatchWithRetry_unfold,
      tryDispatchUntyped_untyped]
    simp [Resolved.errorField, h, Outcome.untyped]
  | succ d ih =>
    intro attempt w hd
    rw [doDispatchWithRetryUntyped_unfold, doDispatchWithRetry_unfold,
      tryDispatchUntyped_untyped]
    simp only [Resolved.errorField]
    split
    · rfl
    · exact ih (attempt + 1) _ (by omega)

/-- C3, as stated, fails: an action that resolves to `undefined`, as a thunk without a
`return` does, neither fails nor throws, yet `dispatchWithRetry(action, 3)` and
`dispatchWithRetry(action)` settle with a thrown `TypeError`, not with a result value: the
destructuring of line 25 stands outside the `try`. -/
theorem dispatchWithRetryUntyped_undefined_throws :
    dispatchWithRetryUntyped (fun w : Unit => (UntypedOutcome.resolved Resolved.undefined, w))
        (some 3) () = (.thrown typeError, ()) ∧
      dispatchWithRetryUntyped (fun w : Unit => (UntypedOutcome.resolved Resolved.undefined, w))
        none () = (.thrown typeError, ()) := by
  constructor
  · simp only [dispatchWithRetryUntyped]
    rw [doDispatchWithRetryUntyped_unfold]
    rfl
  · simp only [dispatchWithRetryUntyped]
    rw [doDispatchWithRetryUntyped_unfold]
    rfl

/-- C3, amended: `dispatchWithRetry` never hands on a failure of the action as an exception.
For every action each of whose attempts resolves to a result object or throws, and every
integer `maxTries`, given or omitted, it completes with a result value; that value is what
the final attempt left, so when the final attempt threw `e` the result is the failure
`{error: e}`. -/
theorem dispatchWithRetryUntyped_object_results {σ : Type} (a : ActionFunc σ)
    (maxTries : Option Int) (w : σ) :
    (∃ r, (dispatchWithRetryUntyped (untyped a) maxTries w).1 = .resolved (.object r)) ∧
      ∃ result last,
        (dispatchWithRetryUntyped (untyped (traced a)) maxTries (w, [])).1 =
          .resolved (.object result) ∧
        (dispatchWithRetryUntyped (untyped (traced a)) maxTries (w, [])).2.2.getLast? =
          some last ∧
        result = capture last ∧
        ∀ e, last = .thrown e → result = { error := some e } := by
  have hlink : ∀ {τ : Type} (b : ActionFunc τ) (u : τ),
      dispatchWithRetryUntyped (untyped b) maxTries u =
        ((dispatchWithRetry b maxTries u).1.untyped, (dispatchWithRetry b maxTries u).2) :=
    fun b u => doDispatchWithRetryUntyped_untyped b _ _ 1 u rfl
  obtain ⟨⟨r, hr⟩, result, last, h1, h2, h3, h4⟩ := dispatchWithRetry_never_throws a maxTries w
  refine ⟨⟨r, ?_⟩, result, last, ?_, ?_, h3, h4⟩
  · rw [hlink a w, hr]
    rfl
  · rw [hlink (traced a) (w, []), h1]
    rfl
  · rw [hlink (traced a) (w, [])]
    exact h2

/-- C4, as stated, fails: with `maxTries = 1` an action that resolves to `null` is dispatched
once, and `dispatchWithRetry` then returns no result at all: it settles with a thrown
`TypeError`. -/
theorem dispatchWithRetryUntyped_one_try_null_throws :
    dispatchWithRetryUntyped
        (counted fun w : Unit => (UntypedOutcome.resolved Resolved.null, w)) (some 1) ((), 0) =
      (.thrown typeError, ((), 1)) := by
  simp only [dispatchWithRetryUntyped]
  rw [doDispatchWithRetryUntyped_unfold]
  rfl

/-- C4, amended: with `maxTries = 1` the action is dispatched exactly once, whatever that
attempt does.  When the attempt resolves to an object or to a primitive, that value is the
result; when it throws `e`, the result is `{error: e}`; when it resolves to `undefined` or
`null`, there is no result and the returned promise is rejected with a `TypeError`. -/
theorem dispatchWithRetryUntyped_one_try {σ : Type} (a : UntypedActionFunc σ) (w : σ) :
    (dispatchWithRetryUntyped (counted a) (some 1) (w, 0)).2 = ((a w).2, 1) ∧
      (∀ r, (a w).1 = .resolved (.object r) →
        (dispatchWithRetryUntyped (counted a) (some 1) (w, 0)).1 = .resolved (.object r)) ∧
      (∀ v, (a w).1 = .resolved (.primitive v) →
        (dispatchWithRetryUntyped (counted a) (some 1) (w, 0)).1 =
          .resolved (.primitive v)) ∧
      (∀ e, (a w).1 = .thrown e →
        (dispatchWithRetryUntyped (counted a) (some 1) (w, 0)).1 =
          .resolved (.object { error := some e })) ∧
      ((a w).1 = .resolved .undefined ∨ (a w).1 = .resolved .null →
        (dispatchWithRetryUntyped (counted a) (some 1) (w, 0)).1 = .thrown typeError) := by
  have hrun : dispatchWithRetryUntyped (counted a) (some 1) (w, 0) =
      match (tryDispatchUntyped (counted a) (w, 0)).1.errorField with
      | .error thrown => (.thrown thrown, (tryDispatchUntyped (counted a) (w, 0)).2)
      | .ok _ =>
        (.resolved (tryDispatchUntyped (counted a) (w, 0)).1,
          (tryDispatchUntyped (counted a) (w, 0)).2) := by
    simp only [dispatchWithRetryUntyped, Option.getD_some]
    rw [doDispatchWithRetryUntyped_unfold]
    split <;> simp
  have htry : ∀ o, (a w).1 = o →
      tryDispatchUntyped (counted a) (w, 0) =
        ((match o with
          | .resolved value => value
          | .thrown error => Resolved.object { error := some error }), ((a w).2, 1)) := by
    intro o ho
    unfold tryDispatchUntyped counted
    simp only [ho, Nat.zero_add]
    cases o <;> rfl
  refine ⟨?_, ?_, ?_, ?_, ?_⟩
  · rw [hrun, htry _ rfl]
    cases h : (a w).1 with
    | thrown e => rfl
    | resolved value => cases value <;> rfl
  · intro r h
    rw [hrun, htry _ h]
    rfl
  · intro v h
    rw [hrun, htry _ h]
    rfl
  · intro e h
    rw [hrun, htry _ h]
    rfl
  · intro h
    rcases h with h | h
    · rw [hrun, htry _ h]
      rfl
    · rw [hrun, htry _ h]
      rfl

/-- Witness for C4 as amended: one attempt that throws `'error'` gives `{error: 'error'}`,
one attempt that resolves to `undefined` gives a thrown `TypeError`; each is one dispatch. -/
theorem dispatchWithRetryUntyped_one_try_witness :
    (dispatchWithRetryUntyped
        (counted fun w : Unit => (UntypedOutcome.thrown (.str "error"), w)) (some 1)
        ((), 0)).1 = .resolved (.object { error := some (.str "error") }) ∧
      (dispatchWithRetryUntyped
        (counted fun w : Unit => (UntypedOutcome.resolved Resolved.undefined, w)) (some 1)
        ((), 0)).1 = .thrown typeError ∧
      (dispatchWithRetryUntyped
        (counted fun w : Unit => (UntypedOutcome.resolved Resolved.undefined, w)) (some 1)
        ((), 0)).2 = ((), 1) :=
  ⟨(dispatchWithRetryUntyped_one_try
      (fun w : Unit => (UntypedOutcome.thrown (.str "error"), w)) ()).2.2.2.1
      (.str "error") rfl,
    (dispatchWithRetryUntyped_one_try
      (fun w : Unit => (UntypedOutcome.resolved Resolved.undefined, w)) ()).2.2.2.2
      (Or.inl rfl),
    (dispatchWithRetryUntyped_one_try
      (fun w : Unit => (UntypedOutcome.resolved Resolved.undefined, w)) ()).1⟩

/-! ## The selection and the prefetch -/

/-- Whatever `dispatch` does, the thunk `handleSelectChannel(channelId)` returns the result
and makes the `dispatch` calls that `handleSelectChannel` lists for the state it read. -/
theorem handleSelectChannelThunk_recording {State ω ρ : Type} (c : Collaborators State)
    (channelId : String) (d : Dispatched → ω → ρ × ω) (g : ω → State) (w : ω)
    (log : List Dispatched) :
    (handleSelectChannelThunk c channelId (recording d) (fun s => g s.1) (w, log)).1 =
        (handleSelectChannel c channelId (g w)).result ∧
      (handleSelectChannelThunk c channelId (recording d) (fun s => g s.1) (w, log)).2.2 =
        log ++ (handleSelectChannel c channelId (g w)).dispatched := by
  by_cases h : channelId = c.getCurrentChannelId (g w)
  · simp [handleSelectChannelThunk, handleSelectChannel, h]
  · have h1 : ¬ c.getCurrentChannelId (g w) = channelId := fun e => h e.symm
    cases hch : c.getChannel (g w) channelId with
    | none => simp [handleSelectChannelThunk, handleSelectChannel, recording, h, hch]
    | some channel =>
      simp [handleSelectChannelThunk, handleSelectChannel, recording, h, h1, hch]

/-- C17: the selection does not depend on the fetch of posts.  Run the thunk
`handleSelectChannel(channelId)` twice from the same state with any two `dispatch`
functions over any two worlds, so with any two ways for the prefetch to go (success, failure
at every attempt, a thrown error) and for the store to react: the returned result is the
same, the `dispatch` calls made are the same, and so are the `BATCH_SWITCH_CHANNEL` batches
among them. -/
theorem handleSelectChannel_independent_of_fetch {State ω₁ ω₂ ρ₁ ρ₂ : Type}
    (c : Collaborators State) (channelId : String)
    (d1 : Dispatched → ω₁ → ρ₁ × ω₁) (d2 : Dispatched → ω₂ → ρ₂ × ω₂)
    (g1 : ω₁ → State) (g2 : ω₂ → State) (w1 : ω₁) (w2 : ω₂) (hstate : g1 w1 = g2 w2) :
    (handleSelectChannelThunk c channelId (recording d1) (fun s => g1 s.1) (w1, [])).1 =
        (handleSelectChannelThunk c channelId (recording d2) (fun s => g2 s.1) (w2, [])).1 ∧
      (handleSelectChannelThunk c channelId (recording d1) (fun s => g1 s.1) (w1, [])).2.2 =
        (handleSelectChannelThunk c channelId (recording d2) (fun s => g2 s.1) (w2, [])).2.2 ∧
      batchesTagged
          (handleSelectChannelThunk c channelId (recording d1) (fun s => g1 s.1) (w1, [])).2.2
          "BATCH_SWITCH_CHANNEL" =
        batchesTagged
          (handleSelectChannelThunk c channelId (recording d2) (fun s => g2 s.1) (w2, [])).2.2
          "BATCH_SWITCH_CHANNEL" := by
  have h1 := handleSelectChannelThunk_recording c channelId d1 g1 w1 []
  have h2 := handleSelectChannelThunk_recording c channelId d2 g2 w2 []
  rw [hstate] at h1
  exact ⟨by rw [h1.1, h2.1], by rw [h1.2, h2.2], by rw [h1.2, h2.2]⟩

/-- Witness for C17: the store of the tests, selecting `B`, once with a fetch of posts that
returns posts and once with a fetch that throws `'error'` at every attempt. -/
theorem handleSelectChannel_independent_of_fetch_witness :
    (handleSelectChannelThunk storeCollaborators "B"
        (recording (prefetching
          (postCollaborators [] (.returned { data := some (.postList (some [])) })) storeAB))
        (fun s => (fun _ => storeAB) s.1) ((0 : Nat), [])).1 =
      (handleSelectChannelThunk storeCollaborators "B"
        (recording (prefetching (postCollaborators [] (.thrown (.str "error"))) storeAB))
        (fun s => (fun _ => storeAB) s.1) ((0 : Nat), [])).1 ∧
    batchesTagged
        (handleSelectChannelThunk storeCollaborators "B"
          (recording (prefetching
            (postCollaborators [] (.returned { data := some (.postList (some [])) }))
            storeAB))
          (fun s => (fun _ => storeAB) s.1) ((0 : Nat), [])).2.2
        "BATCH_SWITCH_CHANNEL" =
      batchesTagged
        (handleSelectChannelThunk storeCollaborators "B"
          (recording (prefetching (postCollaborators [] (.thrown (.str "error"))) storeAB))
          (fun s => (fun _ => storeAB) s.1) ((0 : Nat), [])).2.2
        "BATCH_SWITCH_CHANNEL" :=
  have h := handleSelectChannel_independent_of_fetch storeCollaborators "B"
    (prefetching (postCollaborators [] (.returned { data := some (.postList (some [])) }))
      storeAB)
    (prefetching (postCollaborators [] (.thrown (.str "error"))) storeAB)
    (fun _ => storeAB) (fun _ => storeAB) (0 : Nat) (0 : Nat) rfl
  ⟨h.1, h.2.2⟩

/-! ## `promisesWithRetry` on promises in flight -/

theorem doPromisesWithRetryInFlight_unfold (promises : List TimedPromise)
    (maxTries attempt : Int) (now : Nat) :
    doPromisesWithRetryInFlight promises maxTries attempt now =
      if !(tryAwaitPromiseAll promises now).errorField.truthy || attempt >= maxTries then
        tryAwaitPromiseAll promises now
      else
        doPromisesWithRetryInFlight promises maxTries (attempt + 1)
          (awaitPromiseAll promises now).2 := by
  rw [doPromisesWithRetryInFlight]

theorem awaitPromiseAll_later (promises : List TimedPromise) (now : Nat) :
    now ≤ (awaitPromiseAll promises now).2 := by
  unfold awaitPromiseAll
  split
  · exact Nat.le_succ now
  · split
    · exact Nat.le_succ_of_le (Nat.le_max_left _ _)
    · exact Nat.le_succ_of_le (Nat.le_max_left _ _)

/-- Once every member has settled, what `Promise.all` gives is read off the outcomes in
input order. -/
theorem firstRejectedBy_settled (now : Nat) :
    ∀ promises : List TimedPromise, (∀ p ∈ promises, p.settlesAt ≤ now) →
      (∀ r, firstRejectedBy now promises = some r →
        promiseAll (promises.map fun p => p.outcome) = .error r) ∧
      (firstRejectedBy now promises = none →
        earliestRejection promises = none ∧
          promiseAll (promises.map fun p => p.outcome) = .ok (fulfilledValues promises)) := by
  intro promises
  induction promises with
  | nil =>
    intro _
    exact ⟨fun r h => by simp [firstRejectedBy] at h, fun _ => ⟨rfl, rfl⟩⟩
  | cons p rest ih =>
    intro hall
    have hp : p.settlesAt ≤ now := hall p (List.mem_cons_self p rest)
    have ih1 := ih (fun q hq => hall q (List.mem_cons_of_mem p hq))
    cases ho : p.outcome with
    | rejected reason =>
      constructor
      · intro r h
        simp only [firstRejectedBy, ho, hp, if_true, Option.some.injEq] at h
        simp [promiseAll, ho, h]
      · intro h
        simp [firstRejectedBy, ho, hp] at h
    | fulfilled value =>
      constructor
      · intro r h
        simp only [firstRejectedBy, ho] at h
        simp [promiseAll, ho, ih1.1 r h]
      · intro h
        simp only [firstRejectedBy, ho] at h
        obtain ⟨h1, h2⟩ := ih1.2 h
        refine ⟨by simp [earliestRejection, ho, h1], ?_⟩
        simp [promiseAll, ho, h2, fulfilledValues]

theorem tryAwaitPromiseAll_settled (promises : List TimedPromise) (now : Nat)
    (hall : ∀ p ∈ promises, p.settlesAt ≤ now) :
    tryAwaitPromiseAll promises now = tryPromiseAll (promises.map fun p => p.outcome) := by
  obtain ⟨h1, h2⟩ := firstRejectedBy_settled now promises hall
  unfold tryAwaitPromiseAll awaitPromiseAll tryPromiseAll
  cases hf : firstRejectedBy now promises with
  | some r => simp [h1 r hf]
  | none =>
    obtain ⟨he, hp⟩ := h2 hf
    simp [he, hp]

theorem doPromisesWithRetryInFlight_settled (promises : List TimedPromise) (maxTries : Int) :
    ∀ (d : Nat) (attempt : Int) (now : Nat), (maxTries - attempt).toNat = d →
      (∀ p ∈ promises, p.settlesAt ≤ now) →
      doPromisesWithRetryInFlight promises maxTries attempt now =
        tryPromiseAll (promises.map fun p => p.outcome) := by
  intro d
  induction d with
  | zero =>
    intro attempt now hd hall
    rw [doPromisesWithRetryInFlight_unfold, tryAwaitPromiseAll_settled promises now hall]
    have h : attempt ≥ maxTries := by omega
    simp [h]
  | succ d ih =>
    intro attempt now hd hall
    rw [doPromisesWithRetryInFlight_unfold, tryAwaitPromiseAll_settled promises now hall]
    split
    · rfl
    · exact ih (attempt + 1) _ (by omega)
        (fun p hp => le_trans (hall p hp) (awaitPromiseAll_later promises now))

/-- C28, as stated, fails on promises still in flight: of two members, the first rejects
with `'a'` at tick 2 and the second with `'b'` at tick 1.  Called at tick 0 with
`maxTries = 1`, `promisesWithRetry` gives `{error: 'b'}`, the first rejection in time; with
`maxTries = 3` the later attempts find the first member rejected as well and the result is
`{error: 'a'}`.  The result depends on `maxTries`. -/
theorem promisesWithRetryInFlight_depends_on_maxTries :
    promisesWithRetryInFlight
        [{ settlesAt := 2, outcome := .rejected (.str "a") },
          { settlesAt := 1, outcome := .rejected (.str "b") }] (some 1) 0 =
        .failure (.str "b") ∧
      promisesWithRetryInFlight
        [{ settlesAt := 2, outcome := .rejected (.str "a") },
          { settlesAt := 1, outcome := .rejected (.str "b") }] (some 3) 0 =
        .failure (.str "a") ∧
      promisesWithRetryInFlight
        [{ settlesAt := 2, outcome := .rejected (.str "a") },
          { settlesAt := 1, outcome := .rejected (.str "b") }] (some 3) 0 ≠
        promisesWithRetryInFlight
          [{ settlesAt := 2, outcome := .rejected (.str "a") },
            { settlesAt := 1, outcome := .rejected (.str "b") }] (some 1) 0 := by
  have h1 : promisesWithRetryInFlight
      [{ settlesAt := 2, outcome := .rejected (.str "a") },
        { settlesAt := 1, outcome := .rejected (.str "b") }] (some 1) 0 =
      .failure (.str "b") := by
    simp only [promisesWithRetryInFlight, Option.getD_some]
    rw [doPromisesWithRetryInFlight_unfold]
    rfl
  have h3 : promisesWithRetryInFlight
      [{ settlesAt := 2, outcome := .rejected (.str "a") },
        { settlesAt := 1, outcome := .rejected (.str "b") }] (some 3) 0 =
      .failure (.str "a") := by
    simp only [promisesWithRetryInFlight, Option.getD_some]
    rw [doPromisesWithRetryInFlight_unfold, doPromisesWithRetryInFlight_unfold,
      doPromisesWithRetryInFlight_unfold]
    rfl
  exact ⟨h1, h3, by rw [h1, h3]; decide⟩

/-- C28, amended: on promises that have all settled when `promisesWithRetry` is called, its
result does not depend on `maxTries`: for every such batch and every `maxTries`, those from
1 on in particular, `promisesWithRetry(promises, maxTries)` equals
`promisesWithRetry(promises, 1)`; it is the array of the resolved values in input order when
all members have resolved, and `{error: reason}` for the reason of the first rejected
member, in input order, otherwise. -/
theorem promisesWithRetryInFlight_settled_independent (promises : List TimedPromise)
    (maxTries : Int) (now : Nat) (hsettled : ∀ p ∈ promises, p.settlesAt ≤ now) :
    promisesWithRetryInFlight promises (some maxTries) now =
        promisesWithRetryInFlight promises (some 1) now ∧
      (∀ values, (promises.map fun p => p.outcome) = values.map Settled.fulfilled →
        promisesWithRetryInFlight promises (some maxTries) now = .values values) ∧
      (∀ (pre : List ActionResult) (reason : Val) (post : List Settled),
        (promises.map fun p => p.outcome) =
          pre.map Settled.fulfilled ++ Settled.rejected reason :: post →
        promisesWithRetryInFlight promises (some maxTries) now = .failure reason) := by
  have h : ∀ m : Int, promisesWithRetryInFlight promises (some m) now =
      tryPromiseAll (promises.map fun p => p.outcome) := by
    intro m
    unfold promisesWithRetryInFlight
    exact doPromisesWithRetryInFlight_settled promises _ _ 1 now rfl hsettled
  refine ⟨by rw [h, h], ?_, ?_⟩
  · intro values hv
    rw [h, hv, tryPromiseAll, promiseAll_fulfilled]
  · intro pre reason post hv
    rw [h, hv, tryPromiseAll, promiseAll_first_rejected]

/-- Witness for C28 as amended: the two members of the counterexample, called at tick 5 when
both have been rejected, give `{error: 'a'}`, the reason of the first member, with
`maxTries = 4` as with `maxTries = 1`. -/
theorem promisesWithRetryInFlight_settled_independent_witness :
    promisesWithRetryInFlight
        [{ settlesAt := 2, outcome := .rejected (.str "a") },
          { settlesAt := 1, outcome := .rejected (.str "b") }] (some 4) 5 =
        promisesWithRetryInFlight
          [{ settlesAt := 2, outcome := .rejected (.str "a") },
            { settlesAt := 1, outcome := .rejected (.str "b") }] (some 1) 5 ∧
      promisesWithRetryInFlight
        [{ settlesAt := 2, outcome := .rejected (.str "a") },
          { settlesAt := 1, outcome := .rejected (.str "b") }] (some 4) 5 =
        .failure (.str "a") :=
  have h := promisesWithRetryInFlight_settled_independent
    [{ settlesAt := 2, outcome := .rejected (.str "a") },
      { settlesAt := 1, outcome := .rejected (.str "b") }] 4 5 (by decide)
  ⟨h.1, h.2.2 [] (.str "a") [.rejected (.str "b")] rfl⟩

end Mobile
